import Mathlib

/-!
Verification of the cluster plan document engine of kismatic
(`pkg/install/plan.go`): the migration of deprecated fields, the default
resolver, the plan template builder, the bounded password-generation loop,
and the comment-annotating write scan.

Strings are modelled as `List Char` (Go strings of the relevant code are
ASCII).  The `Plan` structure models exactly the fields that
`pkg/install/plan.go` reads or writes; Go pointer fields become `Option`,
Go zero values become the `emptyPlan` below.
-/

deriving instance DecidableEq for Except

/-- Convert a string literal to the `List Char` representation used throughout. -/
def chars (s : String) : List Char := s.data

/-- A node entry of a node group (host, IP, internal IP). -/
structure Node where
  host : List Char
  ip : List Char
  internalip : List Char
deriving DecidableEq, Repr

/-- An NFS volume descriptor (host and mount path). -/
structure NFSVolume where
  host : List Char
  path : List Char
deriving DecidableEq, Repr

/-- SSH access configuration of the cluster. -/
structure SSHConfig where
  user : List Char
  key : List Char
  port : Nat
deriving DecidableEq, Repr

/-- Networking configuration; `typ` is the deprecated KET < v1.5.0 flat
networking type field (`p.Cluster.Networking.Type`). -/
structure NetworkConfig where
  typ : List Char
  podCIDRBlock : List Char
  serviceCIDRBlock : List Char
  updateHostsFiles : Bool
deriving DecidableEq, Repr

/-- Certificate expiry configuration. -/
structure CertsConfig where
  expiry : List Char
  caExpiry : List Char
deriving DecidableEq, Repr

/-- The cluster block.  `allowPackageInstallation` is the deprecated
KET <= v1.4.0 inverted boolean (`*bool` in Go, hence an `Option`). -/
structure Cluster where
  name : List Char
  adminPassword : List Char
  disablePackageInstallation : Bool
  disconnectedInstallation : Bool
  allowPackageInstallation : Option Bool
  networking : NetworkConfig
  certificates : CertsConfig
  ssh : SSHConfig
deriving DecidableEq, Repr

/-- Docker registry block; `address`/`port` are the deprecated flat pair that
migrates into `server`. -/
structure DockerRegistry where
  server : List Char
  address : List Char
  port : Nat
deriving DecidableEq, Repr

/-- The deprecated `features.package_manager` block (KET v1.3.3). -/
structure PackageManagerFeature where
  enabled : Bool
deriving DecidableEq, Repr

/-- The deprecated `features` block. -/
structure Features where
  packageManager : Option PackageManagerFeature
deriving DecidableEq, Repr

/-- Calico options of the CNI add-on. -/
structure CalicoOptions where
  mode : List Char
  logLevel : List Char
  workloadMTU : Nat
  felixInputMTU : Nat
deriving DecidableEq, Repr

/-- Provider-specific CNI options. -/
structure CNIOptions where
  calico : CalicoOptions
deriving DecidableEq, Repr

/-- The CNI add-on block. -/
structure CNI where
  provider : List Char
  options : CNIOptions
deriving DecidableEq, Repr

/-- The DNS add-on block. -/
structure DNS where
  provider : List Char
deriving DecidableEq, Repr

/-- The structured heapster options. -/
structure Heapster where
  replicas : Nat
  serviceType : List Char
  sink : List Char
deriving DecidableEq, Repr

/-- The structured influxdb options. -/
structure InfluxDB where
  pvcName : List Char
deriving DecidableEq, Repr

/-- Options of the heapster monitoring add-on; `heapsterReplicas` and
`influxDBPVCName` are the deprecated KET < v1.5.0 flat fields. -/
structure MonitoringOptions where
  heapster : Heapster
  influxdb : InfluxDB
  heapsterReplicas : Nat
  influxDBPVCName : List Char
deriving DecidableEq, Repr

/-- The heapster monitoring add-on block. -/
structure HeapsterMonitoring where
  options : MonitoringOptions
deriving DecidableEq, Repr

/-- The dashboard add-on block. -/
structure Dashboard where
  disable : Bool
deriving DecidableEq, Repr

/-- The package manager add-on block. -/
structure PackageManager where
  disable : Bool
  provider : List Char
deriving DecidableEq, Repr

/-- The add-ons block; pointer-typed blocks of the Go struct are `Option`.
`dashboardDeprecated` is the deprecated dashboard toggle location. -/
structure AddOns where
  cni : Option CNI
  dns : DNS
  heapsterMonitoring : Option HeapsterMonitoring
  packageManager : PackageManager
  dashboard : Option Dashboard
  dashboardDeprecated : Option Dashboard
deriving DecidableEq, Repr

/-- A role-based node group. -/
structure NodeGroup where
  expectedCount : Nat
  nodes : List Node
deriving DecidableEq, Repr

/-- The NFS block. -/
structure NFS where
  volumes : List NFSVolume
deriving DecidableEq, Repr

/-- The plan document root aggregate. -/
structure Plan where
  cluster : Cluster
  dockerRegistry : DockerRegistry
  features : Option Features
  addOns : AddOns
  etcd : NodeGroup
  master : NodeGroup
  worker : NodeGroup
  ingress : NodeGroup
  storage : NodeGroup
  nfs : NFS
deriving DecidableEq, Repr

/-- The Go zero value `Plan{}`. -/
def emptyPlan : Plan :=
  { cluster :=
      { name := [], adminPassword := [], disablePackageInstallation := false,
        disconnectedInstallation := false, allowPackageInstallation := none,
        networking := { typ := [], podCIDRBlock := [], serviceCIDRBlock := [],
                        updateHostsFiles := false },
        certificates := { expiry := [], caExpiry := [] },
        ssh := { user := [], key := [], port := 0 } },
    dockerRegistry := { server := [], address := [], port := 0 },
    features := none,
    addOns :=
      { cni := none, dns := { provider := [] }, heapsterMonitoring := none,
        packageManager := { disable := false, provider := [] },
        dashboard := none, dashboardDeprecated := none },
    etcd := { expectedCount := 0, nodes := [] },
    master := { expectedCount := 0, nodes := [] },
    worker := { expectedCount := 0, nodes := [] },
    ingress := { expectedCount := 0, nodes := [] },
    storage := { expectedCount := 0, nodes := [] },
    nfs := { volumes := [] } }

/-- `ket133PackageManagerProvider = "helm"`. -/
def ket133PackageManagerProvider : List Char := chars "helm"

/-- `defaultCAExpiry = "17520h"`. -/
def defaultCAExpiry : List Char := chars "17520h"

/-- The constant `cniProviderCalico` ("calico", per the spec: provider defaults
to "calico"; the constant itself is declared outside `plan.go`). -/
def cniProviderCalico : List Char := chars "calico"

/-- Decimal rendering of a natural number (as `fmt.Sprintf("%d", n)`). -/
def digitCh (d : Nat) : Char := Char.ofNat (48 + d)

/-- Decimal digits of `n`, least significant first, with explicit fuel so the
recursion is structural. -/
def natDigitsAux : Nat → Nat → List Char
  | 0, _ => []
  | _ + 1, 0 => []
  | fuel + 1, n + 1 => digitCh ((n + 1) % 10) :: natDigitsAux fuel ((n + 1) / 10)

/-- Decimal rendering of `n`, most significant digit first. -/
def natRepr (n : Nat) : List Char :=
  if n = 0 then [digitCh 0] else (natDigitsAux n n).reverse

/-- First migration rule of `readDeprecatedFields`: the deprecated
`features.package_manager` block (present means it wins) sets the current
disable flag to its negation and pins the provider. -/
def migratePackageManager (p : Plan) : Plan :=
  match p.features with
  | some f =>
    match f.packageManager with
    | some pm =>
      { p with addOns.packageManager :=
          { disable := !pm.enabled, provider := ket133PackageManagerProvider } }
    | none => p
  | none => p

/-- Second migration rule: `allow_package_installation` renamed (and
inverted) to `disable_package_installation` after KET v1.4.0. -/
def migrateAllowPackageInstallation (p : Plan) : Plan :=
  match p.cluster.allowPackageInstallation with
  | some allow => { p with cluster.disablePackageInstallation := !allow }
  | none => p

/-- Third migration rule: the deprecated dashboard field is read only if the
new one is not set. -/
def migrateDashboard (p : Plan) : Plan :=
  match p.addOns.dashboardDeprecated, p.addOns.dashboard with
  | some dd, none => { p with addOns.dashboard := some { disable := dd.disable } }
  | _, _ => p

/-- Fourth migration rule: combine the deprecated registry address/port pair
into `server` when `server` is empty. -/
def migrateRegistryServer (p : Plan) : Plan :=
  if p.dockerRegistry.server = [] ∧ p.dockerRegistry.address ≠ [] ∧
      p.dockerRegistry.port ≠ 0 then
    { p with dockerRegistry.server :=
        p.dockerRegistry.address ++ ':' :: natRepr p.dockerRegistry.port }
  else p

/-- `readDeprecatedFields` of plan.go: the four migration rules in source
order. -/
def readDeprecatedFields (p : Plan) : Plan :=
  migrateRegistryServer (migrateDashboard (migrateAllowPackageInstallation
    (migratePackageManager p)))

/-- `setDefaults` step: create the CNI block when absent (provider calico,
mode overlay unless the deprecated flat networking type overrides it,
log level info). -/
def defaultCNIBlock (p : Plan) : Plan :=
  match p.addOns.cni with
  | none =>
    let mode := if p.cluster.networking.typ ≠ [] then p.cluster.networking.typ
                else chars "overlay"
    let cal : CalicoOptions :=
      { mode := mode, logLevel := chars "info", workloadMTU := 0, felixInputMTU := 0 }
    { p with addOns.cni := some { provider := cniProviderCalico, options.calico := cal } }
  | some _ => p

/-- `setDefaults` step: default the calico log level. -/
def defaultLogLevel (p : Plan) : Plan :=
  match p.addOns.cni with
  | some c =>
    if c.options.calico.logLevel = [] then
      { p with addOns.cni := some { c with options.calico.logLevel := chars "info" } }
    else p
  | none => p

/-- `setDefaults` step: default the felix input MTU. -/
def defaultFelixMTU (p : Plan) : Plan :=
  match p.addOns.cni with
  | some c =>
    if c.options.calico.felixInputMTU = 0 then
      { p with addOns.cni := some { c with options.calico.felixInputMTU := 1440 } }
    else p
  | none => p

/-- `setDefaults` step: default the workload MTU. -/
def defaultWorkloadMTU (p : Plan) : Plan :=
  match p.addOns.cni with
  | some c =>
    if c.options.calico.workloadMTU = 0 then
      { p with addOns.cni := some { c with options.calico.workloadMTU := 1500 } }
    else p
  | none => p

/-- `setDefaults` step: default the DNS provider. -/
def defaultDNS (p : Plan) : Plan :=
  if p.addOns.dns.provider = [] then
    { p with addOns.dns := { provider := chars "kubedns" } }
  else p

/-- `setDefaults` step: create the heapster monitoring block when absent. -/
def defaultHeapsterBlock (p : Plan) : Plan :=
  match p.addOns.heapsterMonitoring with
  | none =>
    let opts : MonitoringOptions :=
      { heapster := { replicas := 0, serviceType := [], sink := [] },
        influxdb := { pvcName := [] }, heapsterReplicas := 0, influxDBPVCName := [] }
    { p with addOns.heapsterMonitoring := some { options := opts } }
  | some _ => p

/-- `setDefaults` step: default the structured replicas to 2. -/
def defaultReplicas (p : Plan) : Plan :=
  match p.addOns.heapsterMonitoring with
  | some h =>
    if h.options.heapster.replicas = 0 then
      { p with addOns.heapsterMonitoring := some { h with options.heapster.replicas := 2 } }
    else p
  | none => p

/-- `setDefaults` step: read the KET < v1.5.0 flat replicas field; when set
it is copied over the structured replicas. -/
def legacyReplicas (p : Plan) : Plan :=
  match p.addOns.heapsterMonitoring with
  | some h =>
    if h.options.heapsterReplicas ≠ 0 then
      { p with
        addOns.heapsterMonitoring :=
          some { h with options.heapster.replicas := h.options.heapsterReplicas } }
    else p
  | none => p

/-- `setDefaults` step: default the heapster sink. -/
def defaultSink (p : Plan) : Plan :=
  match p.addOns.heapsterMonitoring with
  | some h =>
    if h.options.heapster.sink = [] then
      let sink := chars "influxdb:http://heapster-influxdb.kube-system.svc:8086"
      { p with addOns.heapsterMonitoring := some { h with options.heapster.sink := sink } }
    else p
  | none => p

/-- `setDefaults` step: default the heapster service type. -/
def defaultServiceType (p : Plan) : Plan :=
  match p.addOns.heapsterMonitoring with
  | some h =>
    if h.options.heapster.serviceType = [] then
      { p with
        addOns.heapsterMonitoring :=
          some { h with options.heapster.serviceType := chars "ClusterIP" } }
    else p
  | none => p

/-- `setDefaults` step: copy the KET < v1.5.0 flat influxdb PVC name into the
structured location when set. -/
def legacyPVCName (p : Plan) : Plan :=
  match p.addOns.heapsterMonitoring with
  | some h =>
    if h.options.influxDBPVCName ≠ [] then
      { p with
        addOns.heapsterMonitoring :=
          some { h with options.influxdb := { pvcName := h.options.influxDBPVCName } } }
    else p
  | none => p

/-- `setDefaults` step: default the CA expiry. -/
def defaultCAExpirySet (p : Plan) : Plan :=
  if p.cluster.certificates.caExpiry = [] then
    { p with cluster.certificates.caExpiry := defaultCAExpiry }
  else p

/-- `setDefaults` step: create the dashboard block when absent. -/
def defaultDashboard (p : Plan) : Plan :=
  match p.addOns.dashboard with
  | none => { p with addOns.dashboard := some { disable := false } }
  | some _ => p

/-- `setDefaults` of plan.go: the defaulting steps in source order. -/
def setDefaults (p : Plan) : Plan :=
  defaultDashboard (defaultCAExpirySet (legacyPVCName (defaultServiceType
    (defaultSink (legacyReplicas (defaultReplicas (defaultHeapsterBlock
      (defaultDNS (defaultWorkloadMTU (defaultFelixMTU (defaultLogLevel
        (defaultCNIBlock p))))))))))))

/-- Options for generating a plan file template. -/
structure PlanTemplateOptions where
  etcdNodes : Nat
  masterNodes : Nat
  workerNodes : Nat
  ingressNodes : Nat
  storageNodes : Nat
  nfsVolumes : Nat
  adminPassword : List Char
deriving DecidableEq, Repr

/-- The repeated `append` of the builder loops: append `n` copies of `x`
to the end of `l`. -/
def repeatAppend {α : Type} (n : Nat) (x : α) (l : List α) : List α :=
  match n with
  | 0 => l
  | k + 1 => repeatAppend k x (l ++ [x])

/-- `buildPlanFromTemplateOptions` of plan.go: a fresh plan with template
defaults and placeholder node entries. -/
def buildPlanFromTemplateOptions (t : PlanTemplateOptions) : Plan :=
  let cal : CalicoOptions :=
    { mode := chars "overlay", logLevel := chars "info",
      workloadMTU := 1500, felixInputMTU := 1440 }
  let hmOpts : MonitoringOptions :=
    { heapster :=
        { replicas := 2, serviceType := chars "ClusterIP",
          sink := chars "influxdb:http://heapster-influxdb.kube-system.svc:8086" },
      influxdb := { pvcName := [] }, heapsterReplicas := 0, influxDBPVCName := [] }
  let vol : NFSVolume := { host := [], path := chars "/" }
  let n : Node := { host := [], ip := [], internalip := [] }
  { cluster :=
      { name := chars "kubernetes",
        adminPassword := t.adminPassword,
        disablePackageInstallation := false,
        disconnectedInstallation := false,
        allowPackageInstallation := none,
        networking :=
          { typ := [], podCIDRBlock := chars "172.16.0.0/16",
            serviceCIDRBlock := chars "172.20.0.0/16", updateHostsFiles := false },
        certificates := { expiry := chars "17520h", caExpiry := defaultCAExpiry },
        ssh := { user := chars "kismaticuser", key := chars "kismaticuser.key", port := 22 } },
    dockerRegistry := { server := [], address := [], port := 0 },
    features := none,
    addOns :=
      { cni := some { provider := cniProviderCalico, options := { calico := cal } },
        dns := { provider := chars "kubedns" },
        heapsterMonitoring := some { options := hmOpts },
        packageManager := { disable := false, provider := chars "helm" },
        dashboard := some { disable := false },
        dashboardDeprecated := none },
    etcd := { expectedCount := t.etcdNodes, nodes := repeatAppend t.etcdNodes n [] },
    master := { expectedCount := t.masterNodes, nodes := repeatAppend t.masterNodes n [] },
    worker := { expectedCount := t.workerNodes, nodes := repeatAppend t.workerNodes n [] },
    ingress :=
      { expectedCount := t.ingressNodes,
        nodes := if 0 < t.ingressNodes then repeatAppend t.ingressNodes n [] else [] },
    storage :=
      { expectedCount := t.storageNodes,
        nodes := if 0 < t.storageNodes then repeatAppend t.storageNodes n [] else [] },
    nfs := { volumes := repeatAppend t.nfsVolumes vol [] } }

/-- Character class of the validation pattern `^[a-zA-Z1-9]+$`. -/
def isAlphaNum19 (c : Char) : Bool :=
  ('a' ≤ c && c ≤ 'z') || ('A' ≤ c && c ≤ 'Z') || ('1' ≤ c && c ≤ '9')

/-- The full pattern `^[a-zA-Z1-9]+$`: nonempty, all characters in the class. -/
def matchesAlphaNumPattern (s : List Char) : Bool :=
  !s.isEmpty && s.all isAlphaNum19

/-- The retry loop of `generateAlphaNumericPassword`, with the candidate
generator injected (`gen n` is attempt `n`): the loop body generates,
validates, and exits with an error once `attempts == 5`.  The second
component counts generator invocations.  `fuel` is `6 - attempts`, so the
`fuel = 0` arm is never reached from `genLoop gen 0 6`. -/
def genLoop (gen : Nat → Except (List Char) (List Char)) :
    Nat → Nat → Except (List Char) (List Char) × Nat
  | _, 0 => (.error (chars "failed to generate alphanumeric password"), 0)
  | attempts, fuel + 1 =>
    match gen attempts with
    | .error e => (.error e, 1)
    | .ok pass =>
      if matchesAlphaNumPattern pass then (.ok pass, 1)
      else if attempts = 5 then
        (.error (chars "failed to generate alphanumeric password"), 1)
      else
        let r := genLoop gen (attempts + 1) fuel
        (r.1, r.2 + 1)

/-- `generateAlphaNumericPassword` of plan.go over an injected generator. -/
def generateAlphaNumericPassword (gen : Nat → Except (List Char) (List Char)) :
    Except (List Char) (List Char) :=
  (genLoop gen 0 6).1

/-- Number of generation attempts performed by `generateAlphaNumericPassword`. -/
def generateAttempts (gen : Nat → Except (List Char) (List Char)) : Nat :=
  (genLoop gen 0 6).2

/-! ## The annotated write scan

`FilePlanner.Write` marshals the plan, then re-scans the marshaled text line
by line, matching each line against `yamlKeyRE = [^a-zA-Z]*([a-z_\-A-Z]+)[ ]*:`,
tracking the dotted key path on a stack and injecting registry comments.  The
matcher below reproduces the leftmost-first (PCRE-priority) semantics of that
regular expression directly: for each start position, the greedy `[^a-zA-Z]*`
prefix is tried from its maximal length downward, the key class and the space
run are then forced (their shorter matches cannot be followed by a colon). -/

/-- Length of the maximal prefix run satisfying `p`. -/
def runLen (p : Char → Bool) : List Char → Nat
  | [] => 0
  | c :: cs => if p c then runLen p cs + 1 else 0

/-- `[a-zA-Z]`. -/
def isAlphaChar (c : Char) : Bool := ('a' ≤ c && c ≤ 'z') || ('A' ≤ c && c ≤ 'Z')

/-- The capture class `[a-z_\-A-Z]`. -/
def isKeyChar (c : Char) : Bool := isAlphaChar c || c = '_' || c = '-'

/-- Try the tail of the pattern with the `[^a-zA-Z]*` prefix fixed to length
`i`: returns `(i, key length, spaces-plus-colon length)` on success. -/
def tryCapAt (cs : List Char) (i : Nat) : Option (Nat × Nat × Nat) :=
  let t := cs.drop i
  let j := runLen isKeyChar t
  if j = 0 then none
  else
    let u := t.drop j
    let k := runLen (fun c => c = ' ') u
    match u.drop k with
    | ':' :: _ => some (i, j, k + 1)
    | _ => none

/-- Greedy backtracking over the prefix length, longest first. -/
def tryDown (cs : List Char) : Nat → Option (Nat × Nat × Nat)
  | 0 => tryCapAt cs 0
  | i + 1 =>
    match tryCapAt cs (i + 1) with
    | some r => some r
    | none => tryDown cs i

/-- Match of `yamlKeyRE` anchored at the start of `cs`. -/
def matchAtStart (cs : List Char) : Option (Nat × Nat × Nat) :=
  tryDown cs (runLen (fun c => !isAlphaChar c) cs)

/-- Leftmost match of `yamlKeyRE` (matched text `matched[0]` and capture
`matched[1]`), as `regexp.FindStringSubmatch` returns it. -/
def findKey : List Char → Option (List Char × List Char)
  | [] => none
  | c :: rest =>
    match matchAtStart (c :: rest) with
    | some (i, j, k) => some ((c :: rest).take (i + j + k), ((c :: rest).drop i).take j)
    | none => findKey rest

/-- `countLeadingSpace` of plan.go. -/
def countLeadingSpace (s : List Char) : Nat := runLen (fun c => c = ' ') s

/-- `getCommentedLine` of plan.go, as the list of lines it emits: an optional
blank separator, the comment lines indented to the field column, the line. -/
def getCommentedLine (line : List Char) (commentLines : List (List Char))
    (addNewLine : Bool) : List (List Char) :=
  (if addNewLine then [([] : List Char)] else []) ++
    commentLines.map (fun c => List.replicate (countLeadingSpace line) ' ' ++ chars "# " ++ c) ++
    [line]

/-- Lookup in the comment map (Go `map[string][]string` access). -/
def mapLookup : List (List Char × List (List Char)) → List Char → Option (List (List Char))
  | [], _ => none
  | e :: m, k => if e.1 = k then some e.2 else mapLookup m k

/-- Deletion from the comment map (Go `delete`). -/
def mapDelete : List (List Char × List (List Char)) → List Char →
    List (List Char × List (List Char))
  | [], _ => []
  | e :: m, k => if e.1 = k then mapDelete m k else e :: mapDelete m k

/-- `strings.Join(s.s, ".")`. -/
def joinDots : List (List Char) → List Char
  | [] => []
  | [x] => x
  | x :: y :: xs => x ++ '.' :: joinDots (y :: xs)

/-- Pop `n` entries off the key-path stack, failing on an empty stack
(`stack.Pop` returns the "Empty Stack" error, which `Write` propagates). -/
def popN : Nat → List (List Char) → Except (List Char) (List (List Char))
  | 0, st => .ok st
  | n + 1, st =>
    match st with
    | [] => .error (chars "Empty Stack")
    | _ => popN n st.dropLast

/-- The mutable state of the `Write` line scan: the key-path stack (bottom
first, as Go's slice), `prevIndent` (starts at `-1`), the
`addNewLineBeforeComment` flag, and the per-write working copy of the
comment map. -/
structure ScanState where
  stack : List (List Char)
  prevIndent : Int
  anl : Bool
  comments : List (List Char × List (List Char))
deriving DecidableEq, Repr

/-- Structural halving: `half n = n / 2`, stated and proved below; the
structural form lets the scan evaluate definitionally. -/
def half : Nat → Nat
  | 0 => 0
  | 1 => 0
  | n + 2 => half n + 1

/-- One iteration of the `Write` scan loop on line `text`: returns the
updated state and the lines written, or the propagated pop error. -/
def scanStep (st : ScanState) (text : List Char) :
    Except (List Char) (ScanState × List (List Char)) :=
  match findKey text with
  | none => .ok ({ st with anl := true }, [text])
  | some (m0, key) =>
    let indent : Nat := half (m0.count ' ')
    let blankOut : List (List Char) := if (indent : Int) < st.prevIndent then [[]] else []
    let anl0 : Bool := if (indent : Int) < st.prevIndent then false else st.anl
    let popped : Except (List Char) (List (List Char)) :=
      if (indent : Int) ≤ st.prevIndent then
        popN ((st.prevIndent - (indent : Int)).toNat + 1) st.stack
      else .ok st.stack
    match popped with
    | .error e => .error e
    | .ok stack1 =>
      let stack2 := stack1 ++ [key]
      match mapLookup st.comments (joinDots stack2) with
      | some thiscomment =>
        .ok ({ stack := stack2, prevIndent := (indent : Int), anl := true,
               comments := mapDelete st.comments key },
             blankOut ++ getCommentedLine text thiscomment anl0)
      | none =>
        .ok ({ stack := stack2, prevIndent := (indent : Int), anl := true,
               comments := st.comments },
             blankOut ++ [text])

/-- The whole scan loop over the marshaled lines. -/
def scanLines (st : ScanState) : List (List Char) →
    Except (List Char) (ScanState × List (List Char))
  | [] => .ok (st, [])
  | l :: ls =>
    match scanStep st l with
    | .error e => .error e
    | .ok (st1, out1) =>
      match scanLines st1 ls with
      | .error e => .error e
      | .ok (st2, out2) => .ok (st2, out1 ++ out2)

/-- The process-wide comment registry `commentMap` of plan.go: dotted path
to the comment lines, in source order. -/
def commentMap : List (List Char × List (List Char)) :=
  [ (chars "cluster.admin_password",
     [chars "This password is used to login to the Kubernetes Dashboard and can also be",
      chars "used for administration without a security certificate."]),
    (chars "cluster.disable_package_installation",
     [chars "Set to true if the nodes have the required packages installed."]),
    (chars "cluster.disconnected_installation",
     [chars "Set to true if you are performing a disconnected installation."]),
    (chars "cluster.networking",
     [chars "Networking configuration of your cluster."]),
    (chars "cluster.networking.pod_cidr_block",
     [chars "Kubernetes will assign pods IPs in this range. Do not use a range that is",
      chars "already in use on your local network!"]),
    (chars "cluster.networking.service_cidr_block",
     [chars "Kubernetes will assign services IPs in this range. Do not use a range",
      chars "that is already in use by your local network or pod network!"]),
    (chars "cluster.networking.update_hosts_files",
     [chars "Set to true if your nodes cannot resolve each others' names using DNS."]),
    (chars "cluster.networking.http_proxy",
     [chars "Set the proxy server to use for HTTP connections."]),
    (chars "cluster.networking.https_proxy",
     [chars "Set the proxy server to use for HTTPs connections."]),
    (chars "cluster.networking.no_proxy",
     [chars "List of host names and/or IPs that shouldn't go through any proxy.",
      chars "All nodes' 'host' and 'IPs' are always set."]),
    (chars "cluster.certificates",
     [chars "Generated certs configuration."]),
    (chars "cluster.certificates.expiry",
     [chars "Self-signed certificate expiration period in hours; default is 2 years."]),
    (chars "cluster.certificates.ca_expiry",
     [chars "CA certificate expiration period in hours; default is 2 years."]),
    (chars "cluster.ssh",
     [chars "SSH configuration for cluster nodes."]),
    (chars "cluster.ssh.user",
     [chars "This user must be able to sudo without password."]),
    (chars "cluster.ssh.ssh_key",
     [chars "Absolute path to the ssh private key we should use to manage nodes."]),
    (chars "cluster.kube_apiserver",
     [chars "Override configuration of Kubernetes components."]),
    (chars "cluster.cloud_provider",
     [chars "Kubernetes cloud provider integration"]),
    (chars "cluster.cloud_provider.provider",
     [chars "Options: 'aws','azure','cloudstack','fake','gce','mesos','openstack',",
      chars "'ovirt','photon','rackspace','vsphere'.",
      chars "Leave empty for bare metal setups or other unsupported providers."]),
    (chars "cluster.cloud_provider.config",
     [chars "Path to the config file, leave empty if provider does not require it."]),
    (chars "docker",
     [chars "Docker daemon configuration of all cluster nodes"]),
    (chars "etcd",
     [chars "Etcd nodes are the ones that run the etcd distributed key-value database."]),
    (chars "etcd.nodes",
     [chars "Provide the hostname and IP of each node. If the node has an IP for internal",
      chars "traffic, provide it in the internalip field. Otherwise, that field can be",
      chars "left blank."]),
    (chars "master",
     [chars "Master nodes are the ones that run the Kubernetes control plane components."]),
    (chars "worker",
     [chars "Worker nodes are the ones that will run your workloads on the cluster."]),
    (chars "ingress",
     [chars "Ingress nodes will run the ingress controllers."]),
    (chars "storage",
     [chars "Storage nodes will be used to create a distributed storage cluster that can",
      chars "be consumed by your workloads."]),
    (chars "master.load_balanced_fqdn",
     [chars "If you have set up load balancing for master nodes, enter the FQDN name here.",
      chars "Otherwise, use the IP address of a single master node."]),
    (chars "master.load_balanced_short_name",
     [chars "If you have set up load balancing for master nodes, enter the short name here.",
      chars "Otherwise, use the IP address of a single master node."]),
    (chars "docker.storage.direct_lvm",
     [chars "Configure devicemapper in direct-lvm mode (RHEL/CentOS only)."]),
    (chars "docker.storage.direct_lvm.block_device",
     [chars "Path to the block device that will be used for direct-lvm mode. This",
      chars "device will be wiped and used exclusively by docker."]),
    (chars "docker.storage.direct_lvm.enable_deferred_deletion",
     [chars "Set to true if you want to enable deferred deletion when using",
      chars "direct-lvm mode."]),
    (chars "docker_registry",
     [chars "If you want to use an internal registry for the installation or upgrade, you",
      chars "must provide its information here. You must seed this registry before the",
      chars "installation or upgrade of your cluster. This registry must be accessible from",
      chars "all nodes on the cluster."]),
    (chars "docker_registry.server",
     [chars "IP or hostname and port for your registry."]),
    (chars "docker_registry.CA",
     [chars "Absolute path to the certificate authority that should be trusted when",
      chars "connecting to your registry."]),
    (chars "docker_registry.username",
     [chars "Leave blank for unauthenticated access."]),
    (chars "docker_registry.password",
     [chars "Leave blank for unauthenticated access."]),
    (chars "add_ons",
     [chars "Add-ons are additional components that KET installs on the cluster."]),
    (chars "nfs",
     [chars "A set of NFS volumes for use by on-cluster persistent workloads"]),
    (chars "nfs.nfs_host",
     [chars "The host name or ip address of an NFS server."]),
    (chars "nfs.mount_path",
     [chars "The mount path of an NFS share. Must start with /"]),
    (chars "add_ons.cni.provider",
     [chars "Selecting 'custom' will result in a CNI ready cluster, however it is up to",
      chars "you to configure a plugin after the install.",
      chars "Options: 'calico','weave','contiv','custom'."]),
    (chars "add_ons.cni.options.calico.mode",
     [chars "Options: 'overlay','routed'."]),
    (chars "add_ons.cni.options.calico.log_level",
     [chars "Options: 'warning','info','debug'."]),
    (chars "add_ons.cni.options.calico.workload_mtu",
     [chars "MTU for the workload interface, configures the CNI config."]),
    (chars "add_ons.cni.options.calico.felix_input_mtu",
     [chars "MTU for the tunnel device used if IPIP is enabled."]),
    (chars "add_ons.dns.provider",
     [chars "Options: 'kubedns','coredns'."]),
    (chars "add_ons.heapster.options.influxdb.pvc_name",
     [chars "Provide the name of the persistent volume claim that you will create",
      chars "after installation. If not specified, the data will be stored in",
      chars "ephemeral storage."]),
    (chars "add_ons.heapster.options.heapster.service_type",
     [chars "Specify kubernetes ServiceType. Defaults to 'ClusterIP'.",
      chars "Options: 'ClusterIP','NodePort','LoadBalancer','ExternalName'."]),
    (chars "add_ons.heapster.options.heapster.sink",
     [chars "Specify the sink to store heapster data. Defaults to an influxdb pod",
      chars "running on the cluster."]),
    (chars "add_ons.package_manager.provider",
     [chars "Options: 'helm'"]),
    (chars "add_ons.rescheduler",
     [chars "The rescheduler ensures that critical add-ons remain running on the cluster."]) ]

/-- The scan state at the top of `Write`: empty stack, `prevIndent = -1`,
`addNewLineBeforeComment = true`, a fresh working copy of the registry. -/
def initScanState : ScanState :=
  { stack := [], prevIndent := -1, anl := true, comments := commentMap }

/-! ## Structural marshal and deserialize

Modelled from the spec: the structural yaml (de)serialization of the plan
document (`yaml.Marshal`/`yaml.Unmarshal` over the Plan struct's yaml tags)
is carried out by a library outside this repository and the struct tags are
outside `plan.go`; the spec fixes the persisted form as an indentation-based
schema, two columns per nesting level, `key: value` lines, comment lines
starting with `#` and blank lines ignored on read, deprecated fields never
written.  The definitions below realize exactly that canonical form. -/

/-- A block-opening line `key:` at nesting level `ind`. -/
def kline (ind : Nat) (key : String) : List Char :=
  List.replicate (2 * ind) ' ' ++ chars key ++ [':']

/-- A scalar line `key: value` at nesting level `ind`. -/
def vline (ind : Nat) (key : String) (val : List Char) : List Char :=
  List.replicate (2 * ind) ' ' ++ chars key ++ ':' :: ' ' :: val

/-- The first line of a list item, `- key: value`. -/
def iline (ind : Nat) (key : String) (val : List Char) : List Char :=
  List.replicate (2 * ind) ' ' ++ '-' :: ' ' :: (chars key ++ ':' :: ' ' :: val)

/-- Boolean scalar rendering. -/
def boolRepr (b : Bool) : List Char := if b then chars "true" else chars "false"

/-- Modelled from the spec: marshaled form of the cluster block. -/
def clusterLines (c : Cluster) : List (List Char) :=
  [ kline 0 "cluster",
    vline 1 "name" c.name,
    vline 1 "admin_password" c.adminPassword,
    vline 1 "disable_package_installation" (boolRepr c.disablePackageInstallation),
    vline 1 "disconnected_installation" (boolRepr c.disconnectedInstallation),
    kline 1 "networking",
    vline 2 "pod_cidr_block" c.networking.podCIDRBlock,
    vline 2 "service_cidr_block" c.networking.serviceCIDRBlock,
    vline 2 "update_hosts_files" (boolRepr c.networking.updateHostsFiles),
    kline 1 "certificates",
    vline 2 "expiry" c.certificates.expiry,
    vline 2 "ca_expiry" c.certificates.caExpiry,
    kline 1 "ssh",
    vline 2 "user" c.ssh.user,
    vline 2 "ssh_key" c.ssh.key,
    vline 2 "ssh_port" (natRepr c.ssh.port) ]

/-- Modelled from the spec: marshaled form of the registry block. -/
def registryLines (r : DockerRegistry) : List (List Char) :=
  [ kline 0 "docker_registry", vline 1 "server" r.server ]

/-- Modelled from the spec: marshaled form of the optional CNI block. -/
def cniLines : Option CNI → List (List Char)
  | none => []
  | some c =>
    [ kline 1 "cni",
      vline 2 "provider" c.provider,
      kline 2 "options",
      kline 3 "calico",
      vline 4 "mode" c.options.calico.mode,
      vline 4 "log_level" c.options.calico.logLevel,
      vline 4 "workload_mtu" (natRepr c.options.calico.workloadMTU),
      vline 4 "felix_input_mtu" (natRepr c.options.calico.felixInputMTU) ]

/-- Modelled from the spec: marshaled form of the optional heapster block. -/
def heapsterLines : Option HeapsterMonitoring → List (List Char)
  | none => []
  | some h =>
    [ kline 1 "heapster",
      kline 2 "options",
      kline 3 "heapster",
      vline 4 "replicas" (natRepr h.options.heapster.replicas),
      vline 4 "service_type" h.options.heapster.serviceType,
      vline 4 "sink" h.options.heapster.sink,
      kline 3 "influxdb",
      vline 4 "pvc_name" h.options.influxdb.pvcName ]

/-- Modelled from the spec: marshaled form of the optional dashboard block. -/
def dashboardLines : Option Dashboard → List (List Char)
  | none => []
  | some d => [ kline 1 "dashboard", vline 2 "disable" (boolRepr d.disable) ]

/-- Modelled from the spec: marshaled form of the add-ons block. -/
def addonsLines (a : AddOns) : List (List Char) :=
  kline 0 "add_ons" ::
    (cniLines a.cni ++
      ([kline 1 "dns", vline 2 "provider" a.dns.provider] ++
        (heapsterLines a.heapsterMonitoring ++
          ([kline 1 "package_manager",
            vline 2 "disable" (boolRepr a.packageManager.disable),
            vline 2 "provider" a.packageManager.provider] ++
            dashboardLines a.dashboard))))

/-- Marshaled node entries of a node group. -/
def nodeLines : List Node → List (List Char)
  | [] => []
  | nd :: rest =>
    iline 1 "host" nd.host :: vline 2 "ip" nd.ip ::
      vline 2 "internalip" nd.internalip :: nodeLines rest

/-- Modelled from the spec: marshaled form of one node group. -/
def groupLines (gkey : String) (g : NodeGroup) : List (List Char) :=
  kline 0 gkey :: vline 1 "expected_count" (natRepr g.expectedCount) ::
    (if g.nodes.isEmpty then [vline 1 "nodes" (chars "[]")]
     else kline 1 "nodes" :: nodeLines g.nodes)

/-- Marshaled NFS volume entries. -/
def volLines : List NFSVolume → List (List Char)
  | [] => []
  | v :: rest => iline 1 "nfs_host" v.host :: vline 2 "mount_path" v.path :: volLines rest

/-- Modelled from the spec: marshaled form of the NFS block. -/
def nfsLines (x : NFS) : List (List Char) :=
  kline 0 "nfs" ::
    (if x.volumes.isEmpty then [vline 1 "volumes" (chars "[]")]
     else kline 1 "volumes" :: volLines x.volumes)

/-- Modelled from the spec: the structural marshal of a plan document to its
canonical uncommented text lines. -/
def marshalPlan (p : Plan) : List (List Char) :=
  clusterLines p.cluster ++
    (registryLines p.dockerRegistry ++
      (addonsLines p.addOns ++
        (groupLines "etcd" p.etcd ++
          (groupLines "master" p.master ++
            (groupLines "worker" p.worker ++
              (groupLines "ingress" p.ingress ++
                (groupLines "storage" p.storage ++ nfsLines p.nfs)))))))

/-- `FilePlanner.Write` without the file system: marshal, then run the
comment-annotating scan from the fresh state. -/
def writePlan (p : Plan) : Except (List Char) (List (List Char)) :=
  match scanLines initScanState (marshalPlan p) with
  | .error e => .error e
  | .ok (_, out) => .ok out

/-- Drop an exact prefix. -/
def dropPre : List Char → List Char → Option (List Char)
  | [], s => some s
  | _ :: _, [] => none
  | c :: pre, d :: s => if c = d then dropPre pre s else none

/-- Expect an exact line. -/
def expectL (l : List Char) : List (List Char) → Option (List (List Char))
  | x :: rest => if x = l then some rest else none
  | [] => none

/-- Parse a scalar line `key: value` at level `ind`, returning the value. -/
def parseV (ind : Nat) (key : String) : List (List Char) → Option (List Char × List (List Char))
  | x :: rest =>
    match dropPre (List.replicate (2 * ind) ' ' ++ chars key ++ [':', ' ']) x with
    | some v => some (v, rest)
    | none => none
  | [] => none

/-- `[0-9]`. -/
def isDigitChar (c : Char) : Bool := '0' ≤ c && c ≤ '9'

/-- Digit value of a character. -/
def charToDigit (c : Char) : Nat := c.toNat - 48

/-- Parse a decimal scalar. -/
def parseNat (s : List Char) : Option Nat :=
  if !s.isEmpty && s.all isDigitChar then
    some (Nat.ofDigits 10 ((s.map charToDigit).reverse))
  else none

/-- Parse a boolean scalar. -/
def parseBool (s : List Char) : Option Bool :=
  if s = chars "true" then some true
  else if s = chars "false" then some false
  else none

/-- Parse consecutive node entries. -/
def parseNodes : List (List Char) → Option (List Node × List (List Char))
  | [] => some ([], [])
  | l :: ls =>
    match dropPre (chars "  - host: ") l with
    | some h =>
      match ls with
      | l2 :: l3 :: rest =>
        match dropPre (chars "    ip: ") l2, dropPre (chars "    internalip: ") l3 with
        | some ip, some ii =>
          match parseNodes rest with
          | some (ns, rest2) => some ({ host := h, ip := ip, internalip := ii } :: ns, rest2)
          | none => none
        | _, _ => none
      | _ => none
    | none => some ([], l :: ls)

/-- Parse consecutive NFS volume entries. -/
def parseVols : List (List Char) → Option (List NFSVolume × List (List Char))
  | [] => some ([], [])
  | l :: ls =>
    match dropPre (chars "  - nfs_host: ") l with
    | some h =>
      match ls with
      | l2 :: rest =>
        match dropPre (chars "    mount_path: ") l2 with
        | some pa =>
          match parseVols rest with
          | some (vs, rest2) => some ({ host := h, path := pa } :: vs, rest2)
          | none => none
        | none => none
      | _ => none
    | none => some ([], l :: ls)

/-- Parse one node group. -/
def parseGroup (gkey : String) (ls : List (List Char)) :
    Option (NodeGroup × List (List Char)) := do
  let r1 ← expectL (kline 0 gkey) ls
  let (cnt, r2) ← parseV 1 "expected_count" r1
  let n ← parseNat cnt
  match r2 with
  | l :: rest =>
    if l = vline 1 "nodes" (chars "[]") then
      some ({ expectedCount := n, nodes := [] }, rest)
    else do
      let r3 ← expectL (kline 1 "nodes") (l :: rest)
      let (ns, r4) ← parseNodes r3
      if ns.isEmpty then none
      else some ({ expectedCount := n, nodes := ns }, r4)
  | [] => none

/-- Parse the optional CNI block. -/
def parseCNI (ls : List (List Char)) : Option (Option CNI × List (List Char)) :=
  match ls with
  | l :: rest =>
    if l = kline 1 "cni" then do
      let (prov, r1) ← parseV 2 "provider" rest
      let r2 ← expectL (kline 2 "options") r1
      let r3 ← expectL (kline 3 "calico") r2
      let (mode, r4) ← parseV 4 "mode" r3
      let (ll, r5) ← parseV 4 "log_level" r4
      let (wm, r6) ← parseV 4 "workload_mtu" r5
      let (fm, r7) ← parseV 4 "felix_input_mtu" r6
      let wmn ← parseNat wm
      let fmn ← parseNat fm
      some (some { provider := prov,
                   options := { calico :=
                     { mode := mode, logLevel := ll,
                       workloadMTU := wmn, felixInputMTU := fmn } } }, r7)
    else some (none, l :: rest)
  | [] => some (none, [])

/-- Parse the optional heapster block. -/
def parseHeapster (ls : List (List Char)) :
    Option (Option HeapsterMonitoring × List (List Char)) :=
  match ls with
  | l :: rest =>
    if l = kline 1 "heapster" then do
      let r1 ← expectL (kline 2 "options") rest
      let r2 ← expectL (kline 3 "heapster") r1
      let (rep, r3) ← parseV 4 "replicas" r2
      let (st, r4) ← parseV 4 "service_type" r3
      let (sink, r5) ← parseV 4 "sink" r4
      let r6 ← expectL (kline 3 "influxdb") r5
      let (pvc, r7) ← parseV 4 "pvc_name" r6
      let repn ← parseNat rep
      some (some { options :=
              { heapster := { replicas := repn, serviceType := st, sink := sink },
                influxdb := { pvcName := pvc },
                heapsterReplicas := 0, influxDBPVCName := [] } }, r7)
    else some (none, l :: rest)
  | [] => some (none, [])

/-- Parse the optional dashboard block. -/
def parseDashboard (ls : List (List Char)) :
    Option (Option Dashboard × List (List Char)) :=
  match ls with
  | l :: rest =>
    if l = kline 1 "dashboard" then do
      let (d, r1) ← parseV 2 "disable" rest
      let db ← parseBool d
      some (some { disable := db }, r1)
    else some (none, l :: rest)
  | [] => some (none, [])

/-- Parse the networking section of the cluster block. -/
def parseNetSec (ls : List (List Char)) : Option (NetworkConfig × List (List Char)) := do
  let r1 ← expectL (kline 1 "networking") ls
  let (podc, r2) ← parseV 2 "pod_cidr_block" r1
  let (svcc, r3) ← parseV 2 "service_cidr_block" r2
  let (uhf, r4) ← parseV 2 "update_hosts_files" r3
  let uhfb ← parseBool uhf
  some ({ typ := [], podCIDRBlock := podc, serviceCIDRBlock := svcc,
          updateHostsFiles := uhfb }, r4)

/-- Parse the certificates section of the cluster block. -/
def parseCertsSec (ls : List (List Char)) : Option (CertsConfig × List (List Char)) := do
  let r1 ← expectL (kline 1 "certificates") ls
  let (exp, r2) ← parseV 2 "expiry" r1
  let (caexp, r3) ← parseV 2 "ca_expiry" r2
  some ({ expiry := exp, caExpiry := caexp }, r3)

/-- Parse the ssh section of the cluster block. -/
def parseSSHSec (ls : List (List Char)) : Option (SSHConfig × List (List Char)) := do
  let r1 ← expectL (kline 1 "ssh") ls
  let (user, r2) ← parseV 2 "user" r1
  let (skey, r3) ← parseV 2 "ssh_key" r2
  let (sport, r4) ← parseV 2 "ssh_port" r3
  let sportn ← parseNat sport
  some ({ user := user, key := skey, port := sportn }, r4)

/-- Parse the cluster block. -/
def parseClusterSec (ls : List (List Char)) : Option (Cluster × List (List Char)) := do
  let r1 ← expectL (kline 0 "cluster") ls
  let (name, r2) ← parseV 1 "name" r1
  let (pw, r3) ← parseV 1 "admin_password" r2
  let (dpi, r4) ← parseV 1 "disable_package_installation" r3
  let (di, r5) ← parseV 1 "disconnected_installation" r4
  let dpib ← parseBool dpi
  let dib ← parseBool di
  let (net, r6) ← parseNetSec r5
  let (certs, r7) ← parseCertsSec r6
  let (ssh, r8) ← parseSSHSec r7
  some ({ name := name, adminPassword := pw, disablePackageInstallation := dpib,
          disconnectedInstallation := dib, allowPackageInstallation := none,
          networking := net, certificates := certs, ssh := ssh }, r8)

/-- Parse the add-ons block. -/
def parseAddonsSec (ls : List (List Char)) : Option (AddOns × List (List Char)) := do
  let r1 ← expectL (kline 0 "add_ons") ls
  let (cni, r2) ← parseCNI r1
  let r3 ← expectL (kline 1 "dns") r2
  let (dnsp, r4) ← parseV 2 "provider" r3
  let (hm, r5) ← parseHeapster r4
  let r6 ← expectL (kline 1 "package_manager") r5
  let (pmd, r7) ← parseV 2 "disable" r6
  let (pmp, r8) ← parseV 2 "provider" r7
  let pmdb ← parseBool pmd
  let (db, r9) ← parseDashboard r8
  some ({ cni := cni, dns := { provider := dnsp }, heapsterMonitoring := hm,
          packageManager := { disable := pmdb, provider := pmp },
          dashboard := db, dashboardDeprecated := none }, r9)

/-- Parse the NFS block, which must end the document. -/
def parseNFSSec (ls : List (List Char)) : Option NFS := do
  let r1 ← expectL (kline 0 "nfs") ls
  match r1 with
  | l :: rest =>
    if l = vline 1 "volumes" (chars "[]") then
      if rest.isEmpty then some { volumes := [] } else none
    else do
      let r2 ← expectL (kline 1 "volumes") (l :: rest)
      let (vs, r3) ← parseVols r2
      if vs.isEmpty ∨ !r3.isEmpty then none else some { volumes := vs }
  | [] => none

/-- Modelled from the spec: the structural deserializer for the fixed
indentation-based schema (the `yaml.Unmarshal` step of `Read`), accepting the
canonical form written by `marshalPlan`; unserialized deprecated fields keep
their zero values. -/
def parsePlan (ls : List (List Char)) : Option Plan := do
  let (cluster, r1) ← parseClusterSec ls
  let r2 ← expectL (kline 0 "docker_registry") r1
  let (server, r3) ← parseV 1 "server" r2
  let (addons, r4) ← parseAddonsSec r3
  let (etcd, r5) ← parseGroup "etcd" r4
  let (master, r6) ← parseGroup "master" r5
  let (worker, r7) ← parseGroup "worker" r6
  let (ingress, r8) ← parseGroup "ingress" r7
  let (storage, r9) ← parseGroup "storage" r8
  let nfs ← parseNFSSec r9
  some { cluster := cluster,
         dockerRegistry := { server := server, address := [], port := 0 },
         features := none, addOns := addons,
         etcd := etcd, master := master, worker := worker,
         ingress := ingress, storage := storage, nfs := nfs }

/-- Whether the read path keeps a line: blank lines and comment lines are
ignored by the deserializer. -/
def keepLine (l : List Char) : Bool :=
  !l.isEmpty && !((l.dropWhile (fun c => c = ' ')).headD 'a' = '#')

/-- `FilePlanner.Read` without the file system: deserialize (ignoring
comments and blank lines), migrate deprecated fields, apply defaults. -/
def readPlanLines (ls : List (List Char)) : Option Plan :=
  match parsePlan (ls.filter keepLine) with
  | some p => some (setDefaults (readDeprecatedFields p))
  | none => none

/-! ## Helper lemmas -/

theorem repeatAppend_eq_append_replicate {α : Type} (x : α) :
    ∀ (n : Nat) (l : List α), repeatAppend n x l = l ++ List.replicate n x := by
  intro n
  induction n with
  | zero => intro l; simp [repeatAppend]
  | succ k ih =>
    intro l
    rw [repeatAppend, ih, List.replicate_succ]
    simp

theorem half_eq_div2 : ∀ n : Nat, half n = n / 2 := by
  intro n
  induction n using Nat.strong_induction_on with
  | _ n ih =>
    match n with
    | 0 => rfl
    | 1 => rfl
    | m + 2 =>
      rw [half, ih m (by omega)]
      omega

theorem migrateAllowPackageInstallation_addOns (p : Plan) :
    (migrateAllowPackageInstallation p).addOns = p.addOns := by
  unfold migrateAllowPackageInstallation
  split <;> rfl

theorem migrateDashboard_packageManager (p : Plan) :
    (migrateDashboard p).addOns.packageManager = p.addOns.packageManager := by
  unfold migrateDashboard
  split <;> rfl

theorem migrateRegistryServer_addOns (p : Plan) :
    (migrateRegistryServer p).addOns = p.addOns := by
  unfold migrateRegistryServer
  split <;> rfl

/-- Claim C1: for every plan document in which the deprecated
`features.package_manager` block is present with `enabled = false`, the
migration step of `Read` sets the current `add_ons.package_manager` disable
flag to `true` and the provider to the fixed legacy provider name `"helm"`,
regardless of any value the current disable flag held before migration. -/
theorem readDeprecatedFields_packageManager_precedence
    (p : Plan) (f : Features) (pm : PackageManagerFeature)
    (hf : p.features = some f) (hpm : f.packageManager = some pm)
    (he : pm.enabled = false) :
    (readDeprecatedFields p).addOns.packageManager.disable = true ∧
    (readDeprecatedFields p).addOns.packageManager.provider = chars "helm" := by
  unfold readDeprecatedFields
  rw [migrateRegistryServer_addOns, migrateDashboard_packageManager,
    migrateAllowPackageInstallation_addOns]
  simp [migratePackageManager, hf, hpm, he, ket133PackageManagerProvider]

/-- Witness for C1 at a concrete plan whose current disable flag is
explicitly false. -/
theorem readDeprecatedFields_packageManager_precedence_witness :
    (readDeprecatedFields
      { emptyPlan with
        features := some { packageManager := some { enabled := false } },
        addOns.packageManager := { disable := false, provider := [] } }).addOns.packageManager.disable = true ∧
    (readDeprecatedFields
      { emptyPlan with
        features := some { packageManager := some { enabled := false } },
        addOns.packageManager := { disable := false, provider := [] } }).addOns.packageManager.provider = chars "helm" :=
  readDeprecatedFields_packageManager_precedence _ _ _ rfl rfl rfl

/-- Claim C5: for all non-negative role counts and volume count, the template
builder yields node lists of exactly those lengths, an NFS volume list of
exactly the requested length, each node an empty placeholder and each volume
with empty host and mount path "/". -/
theorem buildPlanFromTemplateOptions_counts (t : PlanTemplateOptions) :
    (buildPlanFromTemplateOptions t).etcd.nodes.length = t.etcdNodes ∧
    (buildPlanFromTemplateOptions t).master.nodes.length = t.masterNodes ∧
    (buildPlanFromTemplateOptions t).worker.nodes.length = t.workerNodes ∧
    (buildPlanFromTemplateOptions t).ingress.nodes.length = t.ingressNodes ∧
    (buildPlanFromTemplateOptions t).storage.nodes.length = t.storageNodes ∧
    (buildPlanFromTemplateOptions t).nfs.volumes.length = t.nfsVolumes ∧
    (buildPlanFromTemplateOptions t).etcd.nodes =
      List.replicate t.etcdNodes { host := [], ip := [], internalip := [] } ∧
    (buildPlanFromTemplateOptions t).master.nodes =
      List.replicate t.masterNodes { host := [], ip := [], internalip := [] } ∧
    (buildPlanFromTemplateOptions t).worker.nodes =
      List.replicate t.workerNodes { host := [], ip := [], internalip := [] } ∧
    (buildPlanFromTemplateOptions t).ingress.nodes =
      List.replicate t.ingressNodes { host := [], ip := [], internalip := [] } ∧
    (buildPlanFromTemplateOptions t).storage.nodes =
      List.replicate t.storageNodes { host := [], ip := [], internalip := [] } ∧
    (buildPlanFromTemplateOptions t).nfs.volumes =
      List.replicate t.nfsVolumes { host := [], path := chars "/" } := by
  have hif : ∀ (m : Nat), (if 0 < m then List.replicate m
      ({ host := [], ip := [], internalip := [] } : Node) else []) =
      List.replicate m { host := [], ip := [], internalip := [] } := by
    intro m
    split
    · rfl
    · have : m = 0 := by omega
      simp [this]
  unfold buildPlanFromTemplateOptions
  simp only [repeatAppend_eq_append_replicate, List.nil_append, hif, List.length_replicate]
  simp

theorem defaultCNIBlock_keeps_dns (p : Plan) :
    (defaultCNIBlock p).addOns.dns = p.addOns.dns := by
  unfold defaultCNIBlock
  split <;> (try split) <;> rfl

theorem defaultCNIBlock_keeps_heapster (p : Plan) :
    (defaultCNIBlock p).addOns.heapsterMonitoring = p.addOns.heapsterMonitoring := by
  unfold defaultCNIBlock
  split <;> (try split) <;> rfl

theorem defaultCNIBlock_keeps_dashboard (p : Plan) :
    (defaultCNIBlock p).addOns.dashboard = p.addOns.dashboard := by
  unfold defaultCNIBlock
  split <;> (try split) <;> rfl

theorem defaultCNIBlock_keeps_cluster (p : Plan) :
    (defaultCNIBlock p).cluster = p.cluster := by
  unfold defaultCNIBlock
  split <;> (try split) <;> rfl

theorem defaultLogLevel_keeps_dns (p : Plan) :
    (defaultLogLevel p).addOns.dns = p.addOns.dns := by
  unfold defaultLogLevel
  split <;> (try split) <;> rfl

theorem defaultLogLevel_keeps_heapster (p : Plan) :
    (defaultLogLevel p).addOns.heapsterMonitoring = p.addOns.heapsterMonitoring := by
  unfold defaultLogLevel
  split <;> (try split) <;> rfl

theorem defaultLogLevel_keeps_dashboard (p : Plan) :
    (defaultLogLevel p).addOns.dashboard = p.addOns.dashboard := by
  unfold defaultLogLevel
  split <;> (try split) <;> rfl

theorem defaultLogLevel_keeps_cluster (p : Plan) :
    (defaultLogLevel p).cluster = p.cluster := by
  unfold defaultLogLevel
  split <;> (try split) <;> rfl

theorem defaultFelixMTU_keeps_dns (p : Plan) :
    (defaultFelixMTU p).addOns.dns = p.addOns.dns := by
  unfold defaultFelixMTU
  split <;> (try split) <;> rfl

theorem defaultFelixMTU_keeps_heapster (p : Plan) :
    (defaultFelixMTU p).addOns.heapsterMonitoring = p.addOns.heapsterMonitoring := by
  unfold defaultFelixMTU
  split <;> (try split) <;> rfl

theorem defaultFelixMTU_keeps_dashboard (p : Plan) :
    (defaultFelixMTU p).addOns.dashboard = p.addOns.dashboard := by
  unfold defaultFelixMTU
  split <;> (try split) <;> rfl

theorem defaultFelixMTU_keeps_cluster (p : Plan) :
    (defaultFelixMTU p).cluster = p.cluster := by
  unfold defaultFelixMTU
  split <;> (try split) <;> rfl

theorem defaultWorkloadMTU_keeps_dns (p : Plan) :
    (defaultWorkloadMTU p).addOns.dns = p.addOns.dns := by
  unfold defaultWorkloadMTU
  split <;> (try split) <;> rfl

theorem defaultWorkloadMTU_keeps_heapster (p : Plan) :
    (defaultWorkloadMTU p).addOns.heapsterMonitoring = p.addOns.heapsterMonitoring := by
  unfold defaultWorkloadMTU
  split <;> (try split) <;> rfl

theorem defaultWorkloadMTU_keeps_dashboard (p : Plan) :
    (defaultWorkloadMTU p).addOns.dashboard = p.addOns.dashboard := by
  unfold defaultWorkloadMTU
  split <;> (try split) <;> rfl

theorem defaultWorkloadMTU_keeps_cluster (p : Plan) :
    (defaultWorkloadMTU p).cluster = p.cluster := by
  unfold defaultWorkloadMTU
  split <;> (try split) <;> rfl

theorem defaultDNS_keeps_cni (p : Plan) :
    (defaultDNS p).addOns.cni = p.addOns.cni := by
  unfold defaultDNS
  split <;> (try split) <;> rfl

theorem defaultDNS_keeps_heapster (p : Plan) :
    (defaultDNS p).addOns.heapsterMonitoring = p.addOns.heapsterMonitoring := by
  unfold defaultDNS
  split <;> (try split) <;> rfl

theorem defaultDNS_keeps_dashboard (p : Plan) :
    (defaultDNS p).addOns.dashboard = p.addOns.dashboard := by
  unfold defaultDNS
  split <;> (try split) <;> rfl

theorem defaultDNS_keeps_cluster (p : Plan) :
    (defaultDNS p).cluster = p.cluster := by
  unfold defaultDNS
  split <;> (try split) <;> rfl

theorem defaultHeapsterBlock_keeps_cni (p : Plan) :
    (defaultHeapsterBlock p).addOns.cni = p.addOns.cni := by
  unfold defaultHeapsterBlock
  split <;> (try split) <;> rfl

theorem defaultHeapsterBlock_keeps_dns (p : Plan) :
    (defaultHeapsterBlock p).addOns.dns = p.addOns.dns := by
  unfold defaultHeapsterBlock
  split <;> (try split) <;> rfl

theorem defaultHeapsterBlock_keeps_dashboard (p : Plan) :
    (defaultHeapsterBlock p).addOns.dashboard = p.addOns.dashboard := by
  unfold defaultHeapsterBlock
  split <;> (try split) <;> rfl

theorem defaultHeapsterBlock_keeps_cluster (p : Plan) :
    (defaultHeapsterBlock p).cluster = p.cluster := by
  unfold defaultHeapsterBlock
  split <;> (try split) <;> rfl

theorem defaultReplicas_keeps_cni (p : Plan) :
    (defaultReplicas p).addOns.cni = p.addOns.cni := by
  unfold defaultReplicas
  split <;> (try split) <;> rfl

theorem defaultReplicas_keeps_dns (p : Plan) :
    (defaultReplicas p).addOns.dns = p.addOns.dns := by
  unfold defaultReplicas
  split <;> (try split) <;> rfl

theorem defaultReplicas_keeps_dashboard (p : Plan) :
    (defaultReplicas p).addOns.dashboard = p.addOns.dashboard := by
  unfold defaultReplicas
  split <;> (try split) <;> rfl

theorem defaultReplicas_keeps_cluster (p : Plan) :
    (defaultReplicas p).cluster = p.cluster := by
  unfold defaultReplicas
  split <;> (try split) <;> rfl

theorem legacyReplicas_keeps_cni (p : Plan) :
    (legacyReplicas p).addOns.cni = p.addOns.cni := by
  unfold legacyReplicas
  split <;> (try split) <;> rfl

theorem legacyReplicas_keeps_dns (p : Plan) :
    (legacyReplicas p).addOns.dns = p.addOns.dns := by
  unfold legacyReplicas
  split <;> (try split) <;> rfl

theorem legacyReplicas_keeps_dashboard (p : Plan) :
    (legacyReplicas p).addOns.dashboard = p.addOns.dashboard := by
  unfold legacyReplicas
  split <;> (try split) <;> rfl

theorem legacyReplicas_keeps_cluster (p : Plan) :
    (legacyReplicas p).cluster = p.cluster := by
  unfold legacyReplicas
  split <;> (try split) <;> rfl

theorem defaultSink_keeps_cni (p : Plan) :
    (defaultSink p).addOns.cni = p.addOns.cni := by
  unfold defaultSink
  split <;> (try split) <;> rfl

theorem defaultSink_keeps_dns (p : Plan) :
    (defaultSink p).addOns.dns = p.addOns.dns := by
  unfold defaultSink
  split <;> (try split) <;> rfl

theorem defaultSink_keeps_dashboard (p : Plan) :
    (defaultSink p).addOns.dashboard = p.addOns.dashboard := by
  unfold defaultSink
  split <;> (try split) <;> rfl

theorem defaultSink_keeps_cluster (p : Plan) :
    (defaultSink p).cluster = p.cluster := by
  unfold defaultSink
  split <;> (try split) <;> rfl

theorem defaultServiceType_keeps_cni (p : Plan) :
    (defaultServiceType p).addOns.cni = p.addOns.cni := by
  unfold defaultServiceType
  split <;> (try split) <;> rfl

theorem defaultServiceType_keeps_dns (p : Plan) :
    (defaultServiceType p).addOns.dns = p.addOns.dns := by
  unfold defaultServiceType
  split <;> (try split) <;> rfl

theorem defaultServiceType_keeps_dashboard (p : Plan) :
    (defaultServiceType p).addOns.dashboard = p.addOns.dashboard := by
  unfold defaultServiceType
  split <;> (try split) <;> rfl

theorem defaultServiceType_keeps_cluster (p : Plan) :
    (defaultServiceType p).cluster = p.cluster := by
  unfold defaultServiceType
  split <;> (try split) <;> rfl

theorem legacyPVCName_keeps_cni (p : Plan) :
    (legacyPVCName p).addOns.cni = p.addOns.cni := by
  unfold legacyPVCName
  split <;> (try split) <;> rfl

theorem legacyPVCName_keeps_dns (p : Plan) :
    (legacyPVCName p).addOns.dns = p.addOns.dns := by
  unfold legacyPVCName
  split <;> (try split) <;> rfl

theorem legacyPVCName_keeps_dashboard (p : Plan) :
    (legacyPVCName p).addOns.dashboard = p.addOns.dashboard := by
  unfold legacyPVCName
  split <;> (try split) <;> rfl

theorem legacyPVCName_keeps_cluster (p : Plan) :
    (legacyPVCName p).cluster = p.cluster := by
  unfold legacyPVCName
  split <;> (try split) <;> rfl

theorem defaultCAExpirySet_keeps_addOns (p : Plan) :
    (defaultCAExpirySet p).addOns = p.addOns := by
  unfold defaultCAExpirySet
  split <;> (try split) <;> rfl

theorem defaultDashboard_keeps_cni (p : Plan) :
    (defaultDashboard p).addOns.cni = p.addOns.cni := by
  unfold defaultDashboard
  split <;> (try split) <;> rfl

theorem defaultDashboard_keeps_dns (p : Plan) :
    (defaultDashboard p).addOns.dns = p.addOns.dns := by
  unfold defaultDashboard
  split <;> (try split) <;> rfl

theorem defaultDashboard_keeps_heapster (p : Plan) :
    (defaultDashboard p).addOns.heapsterMonitoring = p.addOns.heapsterMonitoring := by
  unfold defaultDashboard
  split <;> (try split) <;> rfl

theorem defaultDashboard_keeps_cluster (p : Plan) :
    (defaultDashboard p).cluster = p.cluster := by
  unfold defaultDashboard
  split <;> (try split) <;> rfl

theorem defaultCNIBlock_isSome (p : Plan) :
    (defaultCNIBlock p).addOns.cni.isSome = true := by
  unfold defaultCNIBlock
  split
  · rfl
  · next c heq => simp [heq]

theorem defaultLogLevel_isSome (p : Plan) :
    (defaultLogLevel p).addOns.cni.isSome = p.addOns.cni.isSome := by
  unfold defaultLogLevel
  split
  · next c heq => split <;> simp [heq]
  · rfl

theorem defaultFelixMTU_isSome (p : Plan) :
    (defaultFelixMTU p).addOns.cni.isSome = p.addOns.cni.isSome := by
  unfold defaultFelixMTU
  split
  · next c heq => split <;> simp [heq]
  · rfl

theorem defaultWorkloadMTU_isSome (p : Plan) :
    (defaultWorkloadMTU p).addOns.cni.isSome = p.addOns.cni.isSome := by
  unfold defaultWorkloadMTU
  split
  · next c heq => split <;> simp [heq]
  · rfl

theorem setDefaults_cni_isSome (p : Plan) :
    (setDefaults p).addOns.cni.isSome = true := by
  unfold setDefaults
  rw [defaultDashboard_keeps_cni, defaultCAExpirySet_keeps_addOns,
    legacyPVCName_keeps_cni, defaultServiceType_keeps_cni, defaultSink_keeps_cni,
    legacyReplicas_keeps_cni, defaultReplicas_keeps_cni, defaultHeapsterBlock_keeps_cni,
    defaultDNS_keeps_cni]
  rw [defaultWorkloadMTU_isSome, defaultFelixMTU_isSome, defaultLogLevel_isSome]
  exact defaultCNIBlock_isSome p

/-- Claim C8: after a successful `Read` and after the template builder, the
`AddOns.CNI` block is always present; no caller observes an unset CNI block. -/
theorem read_build_cni_present :
    (∀ ls p, readPlanLines ls = some p → p.addOns.cni.isSome = true) ∧
    (∀ t, (buildPlanFromTemplateOptions t).addOns.cni.isSome = true) := by
  constructor
  · intro ls p h
    unfold readPlanLines at h
    cases hp : parsePlan (ls.filter keepLine) with
    | none => rw [hp] at h; cases h
    | some q =>
      rw [hp] at h
      injection h with h2
      rw [← h2]
      exact setDefaults_cni_isSome _
  · intro t
    rfl

/-- Witness for C8: a concrete successful `Read` of a marshaled template plan. -/
theorem read_build_cni_present_witness :
    (setDefaults (readDeprecatedFields (buildPlanFromTemplateOptions
      { etcdNodes := 1, masterNodes := 1, workerNodes := 1, ingressNodes := 0,
        storageNodes := 0, nfsVolumes := 0,
        adminPassword := chars "pw" }))).addOns.cni.isSome = true :=
  read_build_cni_present.1
    (marshalPlan (buildPlanFromTemplateOptions
      { etcdNodes := 1, masterNodes := 1, workerNodes := 1, ingressNodes := 0,
        storageNodes := 0, nfsVolumes := 0, adminPassword := chars "pw" }))
    _ (by decide)

/-- A plan whose structured heapster replicas and influxdb PVC name are both
explicitly set, while the deprecated flat fields are also set. -/
def planWithLegacyHeapster : Plan :=
  { emptyPlan with
    addOns.heapsterMonitoring := some
      { options :=
          { heapster := { replicas := 3, serviceType := chars "t", sink := chars "s" },
            influxdb := { pvcName := chars "mine" },
            heapsterReplicas := 5, influxDBPVCName := chars "legacy" } } }

/-- Claim C3 counterexample: the structured heapster replicas field carries
the value 3 and the influxdb PVC name carries "mine", yet `setDefaults`
overwrites them (to the deprecated flat values 5 and "legacy"), so the
default resolver does change fields that already carry a value. -/
theorem setDefaults_overwrites_set_fields :
    (planWithLegacyHeapster.addOns.heapsterMonitoring.map
      (fun h => h.options.heapster.replicas)) = some 3 ∧
    (planWithLegacyHeapster.addOns.heapsterMonitoring.map
      (fun h => h.options.influxdb.pvcName)) = some (chars "mine") ∧
    ((setDefaults planWithLegacyHeapster).addOns.heapsterMonitoring.map
      (fun h => h.options.heapster.replicas)) = some 5 ∧
    ((setDefaults planWithLegacyHeapster).addOns.heapsterMonitoring.map
      (fun h => h.options.influxdb.pvcName)) = some (chars "legacy") := by
  decide

/-- Claim C3 (amended): `setDefaults` writes only into fields observed as
unset and never changes a field that already carries a value, with the two
exceptions its legacy-migration copies force: when the deprecated flat
heapster-replicas field is nonzero it overwrites the structured replicas
(even if set), and when the deprecated flat influxdb PVC-name field is
nonempty it overwrites the structured PVC name (even if set); when those
flat fields are unset, set fields are always preserved. -/
theorem setDefaults_writes_only_unset (p : Plan) :
    (∀ c, p.addOns.cni = some c →
      ((setDefaults p).addOns.cni.map fun d => d.provider) = some c.provider ∧
      ((setDefaults p).addOns.cni.map fun d => d.options.calico.mode) =
        some c.options.calico.mode ∧
      (c.options.calico.logLevel ≠ [] →
        ((setDefaults p).addOns.cni.map fun d => d.options.calico.logLevel) =
          some c.options.calico.logLevel) ∧
      (c.options.calico.felixInputMTU ≠ 0 →
        ((setDefaults p).addOns.cni.map fun d => d.options.calico.felixInputMTU) =
          some c.options.calico.felixInputMTU) ∧
      (c.options.calico.workloadMTU ≠ 0 →
        ((setDefaults p).addOns.cni.map fun d => d.options.calico.workloadMTU) =
          some c.options.calico.workloadMTU)) ∧
    (p.addOns.dns.provider ≠ [] →
      (setDefaults p).addOns.dns.provider = p.addOns.dns.provider) ∧
    (∀ h, p.addOns.heapsterMonitoring = some h →
      (h.options.heapsterReplicas = 0 → h.options.heapster.replicas ≠ 0 →
        ((setDefaults p).addOns.heapsterMonitoring.map
          fun x => x.options.heapster.replicas) = some h.options.heapster.replicas) ∧
      (h.options.heapsterReplicas ≠ 0 →
        ((setDefaults p).addOns.heapsterMonitoring.map
          fun x => x.options.heapster.replicas) = some h.options.heapsterReplicas) ∧
      (h.options.heapster.sink ≠ [] →
        ((setDefaults p).addOns.heapsterMonitoring.map
          fun x => x.options.heapster.sink) = some h.options.heapster.sink) ∧
      (h.options.heapster.serviceType ≠ [] →
        ((setDefaults p).addOns.heapsterMonitoring.map
          fun x => x.options.heapster.serviceType) = some h.options.heapster.serviceType) ∧
      (h.options.influxDBPVCName = [] →
        ((setDefaults p).addOns.heapsterMonitoring.map
          fun x => x.options.influxdb) = some h.options.influxdb) ∧
      (h.options.influxDBPVCName ≠ [] →
        ((setDefaults p).addOns.heapsterMonitoring.map
          fun x => x.options.influxdb.pvcName) = some h.options.influxDBPVCName)) ∧
    (p.cluster.certificates.caExpiry ≠ [] →
      (setDefaults p).cluster.certificates.caExpiry = p.cluster.certificates.caExpiry) ∧
    (∀ d, p.addOns.dashboard = some d → (setDefaults p).addOns.dashboard = some d) := by
  refine ⟨?_, ?_, ?_, ?_, ?_⟩
  · intro c h
    unfold setDefaults
    rw [defaultDashboard_keeps_cni, defaultCAExpirySet_keeps_addOns,
      legacyPVCName_keeps_cni, defaultServiceType_keeps_cni, defaultSink_keeps_cni,
      legacyReplicas_keeps_cni, defaultReplicas_keeps_cni, defaultHeapsterBlock_keeps_cni,
      defaultDNS_keeps_cni]
    by_cases h1 : c.options.calico.logLevel = [] <;>
    by_cases h2 : c.options.calico.felixInputMTU = 0 <;>
    by_cases h3 : c.options.calico.workloadMTU = 0 <;>
    simp [defaultCNIBlock, defaultLogLevel, defaultFelixMTU, defaultWorkloadMTU,
      h, h1, h2, h3]
  · intro hd
    unfold setDefaults
    rw [defaultDashboard_keeps_dns, defaultCAExpirySet_keeps_addOns,
      legacyPVCName_keeps_dns, defaultServiceType_keeps_dns, defaultSink_keeps_dns,
      legacyReplicas_keeps_dns, defaultReplicas_keeps_dns, defaultHeapsterBlock_keeps_dns]
    simp [defaultDNS, defaultCNIBlock_keeps_dns, defaultLogLevel_keeps_dns,
      defaultFelixMTU_keeps_dns, defaultWorkloadMTU_keeps_dns, hd]
  · intro h hp
    unfold setDefaults
    rw [defaultDashboard_keeps_heapster, defaultCAExpirySet_keeps_addOns]
    by_cases h1 : h.options.heapster.replicas = 0 <;>
    by_cases h2 : h.options.heapsterReplicas = 0 <;>
    by_cases h3 : h.options.heapster.sink = [] <;>
    by_cases h4 : h.options.heapster.serviceType = [] <;>
    by_cases h5 : h.options.influxDBPVCName = [] <;>
    simp [defaultHeapsterBlock, defaultReplicas, legacyReplicas, defaultSink,
      defaultServiceType, legacyPVCName,
      defaultCNIBlock_keeps_heapster, defaultLogLevel_keeps_heapster,
      defaultFelixMTU_keeps_heapster, defaultWorkloadMTU_keeps_heapster,
      defaultDNS_keeps_heapster, hp, h1, h2, h3, h4, h5]
  · intro hc
    unfold setDefaults
    rw [defaultDashboard_keeps_cluster]
    simp [defaultCAExpirySet, legacyPVCName_keeps_cluster, defaultServiceType_keeps_cluster,
      defaultSink_keeps_cluster, legacyReplicas_keeps_cluster, defaultReplicas_keeps_cluster,
      defaultHeapsterBlock_keeps_cluster, defaultDNS_keeps_cluster,
      defaultWorkloadMTU_keeps_cluster, defaultFelixMTU_keeps_cluster,
      defaultLogLevel_keeps_cluster, defaultCNIBlock_keeps_cluster, hc]
  · intro d hd
    unfold setDefaults
    simp [defaultDashboard, defaultCAExpirySet_keeps_addOns,
      legacyPVCName_keeps_dashboard, defaultServiceType_keeps_dashboard,
      defaultSink_keeps_dashboard, legacyReplicas_keeps_dashboard,
      defaultReplicas_keeps_dashboard, defaultHeapsterBlock_keeps_dashboard,
      defaultDNS_keeps_dashboard, defaultWorkloadMTU_keeps_dashboard,
      defaultFelixMTU_keeps_dashboard, defaultLogLevel_keeps_dashboard,
      defaultCNIBlock_keeps_dashboard, hd]

/-- A plan with every defaultable field already set and the deprecated flat
fields unset. -/
def planAllSet : Plan :=
  { emptyPlan with
    addOns.cni := some
      { provider := chars "calico",
        options :=
          { calico :=
              { mode := chars "routed", logLevel := chars "debug",
                workloadMTU := 9000, felixInputMTU := 8000 } } },
    addOns.dns := { provider := chars "coredns" },
    addOns.heapsterMonitoring := some
      { options :=
          { heapster :=
              { replicas := 7, serviceType := chars "NodePort", sink := chars "sinkval" },
            influxdb := { pvcName := chars "pvcval" },
            heapsterReplicas := 0, influxDBPVCName := [] } },
    cluster.certificates.caExpiry := chars "99h",
    addOns.dashboard := some { disable := true } }

/-- Witness for the amended C3 at a concrete fully-set plan. -/
theorem setDefaults_writes_only_unset_witness :
    ((setDefaults planAllSet).addOns.cni.map fun d => d.options.calico.logLevel) =
      some (chars "debug") ∧
    (setDefaults planAllSet).addOns.dns.provider = chars "coredns" ∧
    ((setDefaults planAllSet).addOns.heapsterMonitoring.map
      fun x => x.options.heapster.replicas) = some 7 ∧
    (setDefaults planAllSet).cluster.certificates.caExpiry = chars "99h" ∧
    (setDefaults planAllSet).addOns.dashboard = some { disable := true } := by
  obtain ⟨hc, hdns, hh, hca, hdb⟩ := setDefaults_writes_only_unset planAllSet
  exact ⟨(hc _ rfl).2.2.1 (by decide), hdns (by decide),
    ((hh _ rfl).1 rfl (by decide)), hca (by decide), hdb _ rfl⟩

theorem genLoop_count_le (gen : Nat → Except (List Char) (List Char)) :
    ∀ (f a : Nat), (genLoop gen a f).2 ≤ f := by
  intro f
  induction f with
  | zero => intro a; simp [genLoop]
  | succ g ih =>
    intro a
    rw [genLoop]
    cases gen a with
    | error e => simp
    | ok pass =>
      by_cases hm : matchesAlphaNumPattern pass = true
      · simp [hm]
      · by_cases ha : a = 5
        · simp [hm, ha]
        · simp only [hm, ha, if_false, Bool.false_eq_true, if_neg]
          have := ih (a + 1)
          simp
          omega

theorem genLoop_fuel_irrel (gen : Nat → Except (List Char) (List Char)) :
    ∀ (f1 f2 a : Nat), a ≤ 5 → 6 - a ≤ f1 → 6 - a ≤ f2 →
      genLoop gen a f1 = genLoop gen a f2 := by
  intro f1
  induction f1 with
  | zero => intro f2 a ha h1 h2; omega
  | succ g ih =>
    intro f2 a ha h1 h2
    cases f2 with
    | zero => omega
    | succ g2 =>
      rw [genLoop, genLoop]
      cases gen a with
      | error e => rfl
      | ok pass =>
        by_cases hm : matchesAlphaNumPattern pass = true
        · simp [hm]
        · by_cases h5 : a = 5
          · simp [hm, h5]
          · simp only [hm, h5, Bool.false_eq_true, if_false, if_neg]
            rw [ih g2 (a + 1) (by omega) (by omega) (by omega)]

theorem genLoop_allfail (gen : Nat → Except (List Char) (List Char))
    (hok : ∀ n, ∃ s, gen n = Except.ok s)
    (hfail : ∀ n s, gen n = Except.ok s → matchesAlphaNumPattern s = false) :
    ∀ (f a : Nat), a ≤ 5 → 6 - a ≤ f →
      genLoop gen a f =
        (Except.error (chars "failed to generate alphanumeric password"), 6 - a) := by
  intro f
  induction f with
  | zero => intro a ha h1; omega
  | succ g ih =>
    intro a ha h1
    obtain ⟨s, hs⟩ := hok a
    rw [genLoop]
    simp only [hs]
    rw [hfail a s hs]
    by_cases h5 : a = 5
    · simp [h5]
    · simp only [Bool.false_eq_true, if_false, h5, if_neg]
      rw [ih (a + 1) (by omega) (by omega)]
      simp
      omega

theorem genLoop_ok (gen : Nat → Except (List Char) (List Char)) :
    ∀ (f a : Nat) (s : List Char), a ≤ 5 → (genLoop gen a f).1 = Except.ok s →
      matchesAlphaNumPattern s = true ∧ ∃ n, a ≤ n ∧ n ≤ 5 ∧ gen n = Except.ok s := by
  intro f
  induction f with
  | zero => intro a s ha h; simp [genLoop] at h
  | succ g ih =>
    intro a s ha h
    rw [genLoop] at h
    cases hg : gen a with
    | error e =>
      simp only [hg] at h
      cases h
    | ok pass =>
      simp only [hg] at h
      by_cases hm : matchesAlphaNumPattern pass = true
      · rw [if_pos hm] at h
        simp at h
        subst h
        exact ⟨hm, a, Nat.le_refl a, ha, hg⟩
      · rw [if_neg hm] at h
        by_cases h5 : a = 5
        · rw [if_pos h5] at h; simp at h
        · rw [if_neg h5] at h
          simp only at h
          obtain ⟨hm2, n, hn1, hn2, hn3⟩ := ih (a + 1) s (by omega) h
          exact ⟨hm2, n, by omega, hn2, hn3⟩

/-- Claim C4: the password generation loop is bounded: the attempt count
never exceeds 6; giving the loop more fuel than its 6 iterations never
changes the result (it never loops unboundedly); with a candidate generator
that never returns a matching string it terminates after exactly 6
generation attempts with the definite error; and a successful return
requires some attempt within the budget to pass validation. -/
theorem generateAlphaNumericPassword_bounded
    (gen : Nat → Except (List Char) (List Char)) :
    generateAttempts gen ≤ 6 ∧
    (∀ f, 6 ≤ f → genLoop gen 0 f = genLoop gen 0 6) ∧
    ((∀ n, ∃ s, gen n = Except.ok s) →
      (∀ n s, gen n = Except.ok s → matchesAlphaNumPattern s = false) →
      generateAlphaNumericPassword gen =
        Except.error (chars "failed to generate alphanumeric password") ∧
      generateAttempts gen = 6) ∧
    (∀ s, generateAlphaNumericPassword gen = Except.ok s →
      ∃ n, n ≤ 5 ∧ gen n = Except.ok s ∧ matchesAlphaNumPattern s = true) := by
  refine ⟨genLoop_count_le gen 6 0, ?_, ?_, ?_⟩
  · intro f hf
    exact genLoop_fuel_irrel gen f 6 0 (by omega) (by omega) (by omega)
  · intro hok hfail
    have := genLoop_allfail gen hok hfail 6 0 (by omega) (by omega)
    unfold generateAlphaNumericPassword generateAttempts
    rw [this]
    exact ⟨rfl, rfl⟩
  · intro s h
    obtain ⟨hm, n, _, hn5, hgen⟩ := genLoop_ok gen 6 0 s (by omega) h
    exact ⟨n, hn5, hgen, hm⟩

/-- Witness for C4: a generator that always produces a non-alphanumeric
candidate makes the operation fail after exactly 6 attempts. -/
theorem generateAlphaNumericPassword_bounded_witness :
    generateAlphaNumericPassword (fun _ => Except.ok (chars "!!!")) =
      Except.error (chars "failed to generate alphanumeric password") ∧
    generateAttempts (fun _ => Except.ok (chars "!!!")) = 6 :=
  (generateAlphaNumericPassword_bounded (fun _ => Except.ok (chars "!!!"))).2.2.1
    (fun _ => ⟨chars "!!!", rfl⟩)
    (fun _ s h => by
      injection h with h2
      rw [← h2]
      decide)

/-- Claim C10: every password successfully returned by
`generateAlphaNumericPassword` matches `^[a-zA-Z1-9]+$`: it is nonempty,
consists only of ASCII letters and the digits 1 through 9, and in particular
never contains the digit 0 (nor any punctuation). -/
theorem generated_password_alphanumeric
    (gen : Nat → Except (List Char) (List Char)) (s : List Char)
    (h : generateAlphaNumericPassword gen = Except.ok s) :
    matchesAlphaNumPattern s = true ∧ s ≠ [] ∧
    (∀ c ∈ s, isAlphaNum19 c = true) ∧ '0' ∉ s := by
  obtain ⟨hm, -, -, -⟩ := genLoop_ok gen 6 0 s (by omega) h
  have hall : ∀ c ∈ s, isAlphaNum19 c = true := by
    intro c hc
    unfold matchesAlphaNumPattern at hm
    simp only [Bool.and_eq_true, List.all_eq_true] at hm
    exact hm.2 c hc
  refine ⟨hm, ?_, hall, ?_⟩
  · intro hnil
    rw [hnil] at hm
    simp [matchesAlphaNumPattern] at hm
  · intro h0
    have := hall '0' h0
    simp [isAlphaNum19] at this

/-- Witness for C10 at a generator returning a fixed alphanumeric password. -/
theorem generated_password_alphanumeric_witness :
    matchesAlphaNumPattern (chars "GoodPass123") = true ∧ chars "GoodPass123" ≠ [] ∧
    (∀ c ∈ chars "GoodPass123", isAlphaNum19 c = true) ∧ '0' ∉ chars "GoodPass123" :=
  generated_password_alphanumeric (fun _ => Except.ok (chars "GoodPass123"))
    (chars "GoodPass123") rfl

/-- Claim C7: in the write-path line scan, every line that is not a
recognizable `key:` line is emitted verbatim and leaves the key-path stack
(and the previous-indent tracking and comment working copy) unchanged. -/
theorem scanStep_nonkey_verbatim (st : ScanState) (l : List Char)
    (h : findKey l = none) :
    ∃ st2, scanStep st l = Except.ok (st2, [l]) ∧ st2.stack = st.stack ∧
      st2.prevIndent = st.prevIndent ∧ st2.comments = st.comments := by
  refine ⟨{ st with anl := true }, ?_, rfl, rfl, rfl⟩
  unfold scanStep
  rw [h]

/-- Witness for C7 at a bare list-item marker line. -/
theorem scanStep_nonkey_verbatim_witness :
    ∃ st2, scanStep initScanState (chars "- ") = Except.ok (st2, [chars "- "]) ∧
      st2.stack = initScanState.stack ∧
      st2.prevIndent = initScanState.prevIndent ∧
      st2.comments = initScanState.comments :=
  scanStep_nonkey_verbatim initScanState (chars "- ") (by decide)

/-- Claim C9: if the scan requests a pop while the key-path stack is empty,
the "Empty Stack" error is produced and propagated: the write aborts on that
line and never recovers. -/
theorem scanLines_pop_empty_fails (st : ScanState) (l : List Char)
    (ls : List (List Char)) (m0 key : List Char)
    (hstack : st.stack = [])
    (hmatch : findKey l = some (m0, key))
    (hpop : ((half (m0.count ' ') : Nat) : Int) ≤ st.prevIndent) :
    scanLines st (l :: ls) = Except.error (chars "Empty Stack") := by
  have hs : scanStep st l = Except.error (chars "Empty Stack") := by
    unfold scanStep
    rw [hmatch]
    simp only [hstack, if_pos hpop]
    rfl
  simp only [scanLines, hs]

/-- Witness for C9: a key line at indent 0 against an empty stack with
`prevIndent` 5. -/
theorem scanLines_pop_empty_fails_witness :
    scanLines { stack := [], prevIndent := 5, anl := true, comments := [] }
      [chars "a:"] = Except.error (chars "Empty Stack") :=
  scanLines_pop_empty_fails _ (chars "a:") [] (chars "a:") (chars "a")
    rfl (by decide) (by decide)

/-- The marshaled lines of an `nfs` block carrying two volumes. -/
def nfsTwoVolumesDoc : List (List Char) :=
  [chars "nfs:", chars "  volumes:",
   chars "  - nfs_host: ", chars "    mount_path: /",
   chars "  - nfs_host: ", chars "    mount_path: /"]

/-- Claim C2 (failing input): scanning an `nfs` block with two volumes
annotates the registered nested path `nfs.nfs_host` twice in one write, and
the path is still present in the per-write working copy afterwards: the
delete uses the bare leaf key (`matched[1]`), not the dotted path used for
the lookup, so a nested multi-segment path is never removed. -/
theorem write_reannotates_nested_path :
    ((scanLines initScanState nfsTwoVolumesDoc).map
      (fun r => r.2.count (chars "  # The host name or ip address of an NFS server."))) =
      Except.ok 2 ∧
    ((scanLines initScanState nfsTwoVolumesDoc).map
      (fun r => (mapLookup r.1.comments (chars "nfs.nfs_host")).isSome)) =
      Except.ok true := by
  decide

theorem dropWhile_replicate_space (l : List Char) :
    ∀ n, List.dropWhile (fun c => c = ' ') (List.replicate n ' ' ++ l) =
      List.dropWhile (fun c => c = ' ') l := by
  intro n
  induction n with
  | zero => rfl
  | succ k ih =>
    rw [List.replicate_succ, List.cons_append, List.dropWhile_cons]
    simp [ih]

theorem keepLine_spaces_cons (n : Nat) (c : Char) (cs : List Char)
    (hs : c ≠ ' ') (hh : c ≠ '#') :
    keepLine (List.replicate n ' ' ++ c :: cs) = true := by
  unfold keepLine
  rw [dropWhile_replicate_space, List.dropWhile_cons]
  simp [hs, hh]

theorem keepLine_comment (n : Nat) (cs : List Char) :
    keepLine (List.replicate n ' ' ++ '#' :: cs) = false := by
  unfold keepLine
  rw [dropWhile_replicate_space, List.dropWhile_cons]
  simp

theorem keepLine_blank : keepLine [] = false := rfl

theorem keepLine_comment_chars (n : Nat) (c : List Char) :
    keepLine (List.replicate n ' ' ++ (chars "# " ++ c)) = false :=
  keepLine_comment n (' ' :: c)

theorem filter_comment_map (n : Nat) (cls : List (List Char)) :
    List.filter keepLine
      (List.map (fun c => List.replicate n ' ' ++ chars "# " ++ c) cls) = [] := by
  rw [List.filter_eq_nil_iff]
  intro a ha
  simp only [List.mem_map] at ha
  obtain ⟨c, hc, hrfl⟩ := ha
  rw [← hrfl, List.append_assoc]
  simp [keepLine_comment_chars n c]

theorem filter_blankIf (c : Prop) [Decidable c] :
    List.filter keepLine (if c then [([] : List Char)] else []) = [] := by
  split <;> simp [keepLine_blank]

theorem filter_blankIfB (b : Bool) :
    List.filter keepLine (if b then [([] : List Char)] else []) = [] := by
  cases b <;> simp [keepLine_blank]

theorem scanStep_filter (st : ScanState) (l : List Char) (st1 : ScanState)
    (out : List (List Char)) (h : scanStep st l = Except.ok (st1, out)) :
    out.filter keepLine = [l].filter keepLine := by
  unfold scanStep at h
  cases hk : findKey l with
  | none =>
    rw [hk] at h
    injection h with h
    injection h with h1 h2
    subst h2
    rfl
  | some r =>
    obtain ⟨m0, key⟩ := r
    rw [hk] at h
    simp only at h
    repeat' split at h
    all_goals try exact Except.noConfusion h
    all_goals
      injection h with h
      injection h with h1 h2
      subst h2
      try unfold getCommentedLine
      simp [List.filter_append, filter_comment_map, filter_blankIfB, keepLine_blank,
        keepLine_comment_chars]

theorem scanLines_filter : ∀ (ls : List (List Char)) (st st2 : ScanState)
    (out : List (List Char)), scanLines st ls = Except.ok (st2, out) →
    out.filter keepLine = ls.filter keepLine := by
  intro ls
  induction ls with
  | nil =>
    intro st st2 out h
    simp only [scanLines] at h
    injection h with h
    injection h with h1 h2
    subst h2
    rfl
  | cons l rest ih =>
    intro st st2 out h
    cases hs : scanStep st l with
    | error e =>
      simp only [scanLines, hs] at h
      exact Except.noConfusion h
    | ok r =>
      obtain ⟨st1, o1⟩ := r
      simp only [scanLines, hs] at h
      cases hrest : scanLines st1 rest with
      | error e =>
        simp only [hrest] at h
        exact Except.noConfusion h
      | ok r2 =>
        obtain ⟨stb, o2⟩ := r2
        simp only [hrest] at h
        injection h with h
        injection h with h1 h2
        subst h2
        rw [List.filter_append, scanStep_filter st l st1 o1 hs, ih st1 stb o2 hrest]
        simp [List.filter_cons]
        split <;> simp

theorem popN_length : ∀ (n : Nat) (l : List (List Char)), l.length = n →
    popN n l = Except.ok [] := by
  intro n
  induction n with
  | zero =>
    intro l hl
    rw [List.length_eq_zero] at hl
    subst hl
    rfl
  | succ k ih =>
    intro l hl
    cases l with
    | nil => simp at hl
    | cons a as =>
      have h2 : (a :: as).dropLast.length = k := by
        simp only [List.length_dropLast, List.length_cons] at hl ⊢
        omega
      exact ih _ h2

theorem scanLines_cons_of {st st1 st2 : ScanState} {l : List Char}
    {o1 o2 : List (List Char)} {ls : List (List Char)}
    (h1 : scanStep st l = Except.ok (st1, o1))
    (h2 : scanLines st1 ls = Except.ok (st2, o2)) :
    scanLines st (l :: ls) = Except.ok (st2, o1 ++ o2) := by
  simp only [scanLines, h1, h2]

theorem scanLines_append_ok {ys : List (List Char)} :
    ∀ {xs : List (List Char)} {st st1 st2 : ScanState} {o1 o2 : List (List Char)},
    scanLines st xs = Except.ok (st1, o1) →
    scanLines st1 ys = Except.ok (st2, o2) →
    scanLines st (xs ++ ys) = Except.ok (st2, o1 ++ o2) := by
  intro xs
  induction xs with
  | nil =>
    intro st st1 st2 o1 o2 h1 h2
    simp only [scanLines] at h1
    injection h1 with h1
    injection h1 with ha hb
    subst ha
    subst hb
    simpa using h2
  | cons l ls ih =>
    intro st st1 st2 o1 o2 h1 h2
    rw [List.cons_append]
    cases hs : scanStep st l with
    | error e =>
      simp only [scanLines, hs] at h1
      exact Except.noConfusion h1
    | ok r =>
      obtain ⟨sta, oa⟩ := r
      simp only [scanLines, hs] at h1
      cases hrest : scanLines sta ls with
      | error e =>
        simp only [hrest] at h1
        exact Except.noConfusion h1
      | ok r2 =>
        obtain ⟨stb, ob⟩ := r2
        simp only [hrest] at h1
        injection h1 with h1
        injection h1 with ha hb
        subst ha
        subst hb
        have h3 := ih hrest h2
        simp only [scanLines, hs, h3]
        simp

theorem scanTopLine (k : String) (cs : List (List Char)) (st : ScanState)
    (hlen : st.stack.length = st.prevIndent.toNat + 1)
    (hp : 1 ≤ st.prevIndent)
    (hfind : findKey (kline 0 k) = some (kline 0 k, chars k))
    (hcount : (kline 0 k).count ' ' = 0)
    (hlook : mapLookup st.comments (chars k) = some cs) :
    scanStep st (kline 0 k) =
      Except.ok ({ stack := [chars k], prevIndent := 0, anl := true,
                   comments := mapDelete st.comments (chars k) },
        [[]] ++ getCommentedLine (kline 0 k) cs false) := by
  unfold scanStep
  rw [hfind]
  simp only [hcount]
  have hpop : popN ((st.prevIndent - ((half 0 : Nat) : Int)).toNat + 1) st.stack =
      Except.ok [] := by
    have he : (st.prevIndent - ((half 0 : Nat) : Int)).toNat + 1 = st.stack.length := by
      rw [hlen]
      simp only [half]
      omega
    rw [he]
    exact popN_length _ _ rfl
  rw [if_pos (by simp only [half]; omega : ((half 0 : Nat) : Int) < st.prevIndent)]
  rw [if_pos (by simp only [half]; omega : ((half 0 : Nat) : Int) ≤ st.prevIndent)]
  simp only [hpop]
  have hj : joinDots (([] : List (List Char)) ++ [chars k]) = chars k := rfl
  simp only [hj, hlook]
  rw [if_pos (by simp only [half]; omega : ((half 0 : Nat) : Int) < st.prevIndent)]
  rfl

/-- The empty placeholder node of the template builder. -/
def node0 : Node := { host := [], ip := [], internalip := [] }

/-- The NFS volume placeholder of the template builder. -/
def vol0 : NFSVolume := { host := [], path := chars "/" }

/-- Working-copy stages of the comment registry during a template-plan write:
only the single-segment (top-level) keys are ever effectively removed, so each
stage is the registry minus the top-level keys already passed. -/
def cm1 : List (List Char × List (List Char)) :=
  [ (chars "cluster.admin_password",
     [chars "This password is used to login to the Kubernetes Dashboard and can also be",
      chars "used for administration without a security certificate."]),
    (chars "cluster.disable_package_installation",
     [chars "Set to true if the nodes have the required packages installed."]),
    (chars "cluster.disconnected_installation",
     [chars "Set to true if you are performing a disconnected installation."]),
    (chars "cluster.networking",
     [chars "Networking configuration of your cluster."]),
    (chars "cluster.networking.pod_cidr_block",
     [chars "Kubernetes will assign pods IPs in this range. Do not use a range that is",
      chars "already in use on your local network!"]),
    (chars "cluster.networking.service_cidr_block",
     [chars "Kubernetes will assign services IPs in this range. Do not use a range",
      chars "that is already in use by your local network or pod network!"]),
    (chars "cluster.networking.update_hosts_files",
     [chars "Set to true if your nodes cannot resolve each others' names using DNS."]),
    (chars "cluster.networking.http_proxy",
     [chars "Set the proxy server to use for HTTP connections."]),
    (chars "cluster.networking.https_proxy",
     [chars "Set the proxy server to use for HTTPs connections."]),
    (chars "cluster.networking.no_proxy",
     [chars "List of host names and/or IPs that shouldn't go through any proxy.",
      chars "All nodes' 'host' and 'IPs' are always set."]),
    (chars "cluster.certificates",
     [chars "Generated certs configuration."]),
    (chars "cluster.certificates.expiry",
     [chars "Self-signed certificate expiration period in hours; default is 2 years."]),
    (chars "cluster.certificates.ca_expiry",
     [chars "CA certificate expiration period in hours; default is 2 years."]),
    (chars "cluster.ssh",
     [chars "SSH configuration for cluster nodes."]),
    (chars "cluster.ssh.user",
     [chars "This user must be able to sudo without password."]),
    (chars "cluster.ssh.ssh_key",
     [chars "Absolute path to the ssh private key we should use to manage nodes."]),
    (chars "cluster.kube_apiserver",
     [chars "Override configuration of Kubernetes components."]),
    (chars "cluster.cloud_provider",
     [chars "Kubernetes cloud provider integration"]),
    (chars "cluster.cloud_provider.provider",
     [chars "Options: 'aws','azure','cloudstack','fake','gce','mesos','openstack',",
      chars "'ovirt','photon','rackspace','vsphere'.",
      chars "Leave empty for bare metal setups or other unsupported providers."]),
    (chars "cluster.cloud_provider.config",
     [chars "Path to the config file, leave empty if provider does not require it."]),
    (chars "docker",
     [chars "Docker daemon configuration of all cluster nodes"]),
    (chars "etcd",
     [chars "Etcd nodes are the ones that run the etcd distributed key-value database."]),
    (chars "etcd.nodes",
     [chars "Provide the hostname and IP of each node. If the node has an IP for internal",
      chars "traffic, provide it in the internalip field. Otherwise, that field can be",
      chars "left blank."]),
    (chars "master",
     [chars "Master nodes are the ones that run the Kubernetes control plane components."]),
    (chars "worker",
     [chars "Worker nodes are the ones that will run your workloads on the cluster."]),
    (chars "ingress",
     [chars "Ingress nodes will run the ingress controllers."]),
    (chars "storage",
     [chars "Storage nodes will be used to create a distributed storage cluster that can",
      chars "be consumed by your workloads."]),
    (chars "master.load_balanced_fqdn",
     [chars "If you have set up load balancing for master nodes, enter the FQDN name here.",
      chars "Otherwise, use the IP address of a single master node."]),
    (chars "master.load_balanced_short_name",
     [chars "If you have set up load balancing for master nodes, enter the short name here.",
      chars "Otherwise, use the IP address of a single master node."]),
    (chars "docker.storage.direct_lvm",
     [chars "Configure devicemapper in direct-lvm mode (RHEL/CentOS only)."]),
    (chars "docker.storage.direct_lvm.block_device",
     [chars "Path to the block device that will be used for direct-lvm mode. This",
      chars "device will be wiped and used exclusively by docker."]),
    (chars "docker.storage.direct_lvm.enable_deferred_deletion",
     [chars "Set to true if you want to enable deferred deletion when using",
      chars "direct-lvm mode."]),
    (chars "docker_registry.server",
     [chars "IP or hostname and port for your registry."]),
    (chars "docker_registry.CA",
     [chars "Absolute path to the certificate authority that should be trusted when",
      chars "connecting to your registry."]),
    (chars "docker_registry.username",
     [chars "Leave blank for unauthenticated access."]),
    (chars "docker_registry.password",
     [chars "Leave blank for unauthenticated access."]),
    (chars "add_ons",
     [chars "Add-ons are additional components that KET installs on the cluster."]),
    (chars "nfs",
     [chars "A set of NFS volumes for use by on-cluster persistent workloads"]),
    (chars "nfs.nfs_host",
     [chars "The host name or ip address of an NFS server."]),
    (chars "nfs.mount_path",
     [chars "The mount path of an NFS share. Must start with /"]),
    (chars "add_ons.cni.provider",
     [chars "Selecting 'custom' will result in a CNI ready cluster, however it is up to",
      chars "you to configure a plugin after the install.",
      chars "Options: 'calico','weave','contiv','custom'."]),
    (chars "add_ons.cni.options.calico.mode",
     [chars "Options: 'overlay','routed'."]),
    (chars "add_ons.cni.options.calico.log_level",
     [chars "Options: 'warning','info','debug'."]),
    (chars "add_ons.cni.options.calico.workload_mtu",
     [chars "MTU for the workload interface, configures the CNI config."]),
    (chars "add_ons.cni.options.calico.felix_input_mtu",
     [chars "MTU for the tunnel device used if IPIP is enabled."]),
    (chars "add_ons.dns.provider",
     [chars "Options: 'kubedns','coredns'."]),
    (chars "add_ons.heapster.options.influxdb.pvc_name",
     [chars "Provide the name of the persistent volume claim that you will create",
      chars "after installation. If not specified, the data will be stored in",
      chars "ephemeral storage."]),
    (chars "add_ons.heapster.options.heapster.service_type",
     [chars "Specify kubernetes ServiceType. Defaults to 'ClusterIP'.",
      chars "Options: 'ClusterIP','NodePort','LoadBalancer','ExternalName'."]),
    (chars "add_ons.heapster.options.heapster.sink",
     [chars "Specify the sink to store heapster data. Defaults to an influxdb pod",
      chars "running on the cluster."]),
    (chars "add_ons.package_manager.provider",
     [chars "Options: 'helm'"]),
    (chars "add_ons.rescheduler",
     [chars "The rescheduler ensures that critical add-ons remain running on the cluster."]) ]

def cm2 : List (List Char × List (List Char)) :=
  [ (chars "cluster.admin_password",
     [chars "This password is used to login to the Kubernetes Dashboard and can also be",
      chars "used for administration without a security certificate."]),
    (chars "cluster.disable_package_installation",
     [chars "Set to true if the nodes have the required packages installed."]),
    (chars "cluster.disconnected_installation",
     [chars "Set to true if you are performing a disconnected installation."]),
    (chars "cluster.networking",
     [chars "Networking configuration of your cluster."]),
    (chars "cluster.networking.pod_cidr_block",
     [chars "Kubernetes will assign pods IPs in this range. Do not use a range that is",
      chars "already in use on your local network!"]),
    (chars "cluster.networking.service_cidr_block",
     [chars "Kubernetes will assign services IPs in this range. Do not use a range",
      chars "that is already in use by your local network or pod network!"]),
    (chars "cluster.networking.update_hosts_files",
     [chars "Set to true if your nodes cannot resolve each others' names using DNS."]),
    (chars "cluster.networking.http_proxy",
     [chars "Set the proxy server to use for HTTP connections."]),
    (chars "cluster.networking.https_proxy",
     [chars "Set the proxy server to use for HTTPs connections."]),
    (chars "cluster.networking.no_proxy",
     [chars "List of host names and/or IPs that shouldn't go through any proxy.",
      chars "All nodes' 'host' and 'IPs' are always set."]),
    (chars "cluster.certificates",
     [chars "Generated certs configuration."]),
    (chars "cluster.certificates.expiry",
     [chars "Self-signed certificate expiration period in hours; default is 2 years."]),
    (chars "cluster.certificates.ca_expiry",
     [chars "CA certificate expiration period in hours; default is 2 years."]),
    (chars "cluster.ssh",
     [chars "SSH configuration for cluster nodes."]),
    (chars "cluster.ssh.user",
     [chars "This user must be able to sudo without password."]),
    (chars "cluster.ssh.ssh_key",
     [chars "Absolute path to the ssh private key we should use to manage nodes."]),
    (chars "cluster.kube_apiserver",
     [chars "Override configuration of Kubernetes components."]),
    (chars "cluster.cloud_provider",
     [chars "Kubernetes cloud provider integration"]),
    (chars "cluster.cloud_provider.provider",
     [chars "Options: 'aws','azure','cloudstack','fake','gce','mesos','openstack',",
      chars "'ovirt','photon','rackspace','vsphere'.",
      chars "Leave empty for bare metal setups or other unsupported providers."]),
    (chars "cluster.cloud_provider.config",
     [chars "Path to the config file, leave empty if provider does not require it."]),
    (chars "docker",
     [chars "Docker daemon configuration of all cluster nodes"]),
    (chars "etcd",
     [chars "Etcd nodes are the ones that run the etcd distributed key-value database."]),
    (chars "etcd.nodes",
     [chars "Provide the hostname and IP of each node. If the node has an IP for internal",
      chars "traffic, provide it in the internalip field. Otherwise, that field can be",
      chars "left blank."]),
    (chars "master",
     [chars "Master nodes are the ones that run the Kubernetes control plane components."]),
    (chars "worker",
     [chars "Worker nodes are the ones that will run your workloads on the cluster."]),
    (chars "ingress",
     [chars "Ingress nodes will run the ingress controllers."]),
    (chars "storage",
     [chars "Storage nodes will be used to create a distributed storage cluster that can",
      chars "be consumed by your workloads."]),
    (chars "master.load_balanced_fqdn",
     [chars "If you have set up load balancing for master nodes, enter the FQDN name here.",
      chars "Otherwise, use the IP address of a single master node."]),
    (chars "master.load_balanced_short_name",
     [chars "If you have set up load balancing for master nodes, enter the short name here.",
      chars "Otherwise, use the IP address of a single master node."]),
    (chars "docker.storage.direct_lvm",
     [chars "Configure devicemapper in direct-lvm mode (RHEL/CentOS only)."]),
    (chars "docker.storage.direct_lvm.block_device",
     [chars "Path to the block device that will be used for direct-lvm mode. This",
      chars "device will be wiped and used exclusively by docker."]),
    (chars "docker.storage.direct_lvm.enable_deferred_deletion",
     [chars "Set to true if you want to enable deferred deletion when using",
      chars "direct-lvm mode."]),
    (chars "docker_registry.server",
     [chars "IP or hostname and port for your registry."]),
    (chars "docker_registry.CA",
     [chars "Absolute path to the certificate authority that should be trusted when",
      chars "connecting to your registry."]),
    (chars "docker_registry.username",
     [chars "Leave blank for unauthenticated access."]),
    (chars "docker_registry.password",
     [chars "Leave blank for unauthenticated access."]),
    (chars "nfs",
     [chars "A set of NFS volumes for use by on-cluster persistent workloads"]),
    (chars "nfs.nfs_host",
     [chars "The host name or ip address of an NFS server."]),
    (chars "nfs.mount_path",
     [chars "The mount path of an NFS share. Must start with /"]),
    (chars "add_ons.cni.provider",
     [chars "Selecting 'custom' will result in a CNI ready cluster, however it is up to",
      chars "you to configure a plugin after the install.",
      chars "Options: 'calico','weave','contiv','custom'."]),
    (chars "add_ons.cni.options.calico.mode",
     [chars "Options: 'overlay','routed'."]),
    (chars "add_ons.cni.options.calico.log_level",
     [chars "Options: 'warning','info','debug'."]),
    (chars "add_ons.cni.options.calico.workload_mtu",
     [chars "MTU for the workload interface, configures the CNI config."]),
    (chars "add_ons.cni.options.calico.felix_input_mtu",
     [chars "MTU for the tunnel device used if IPIP is enabled."]),
    (chars "add_ons.dns.provider",
     [chars "Options: 'kubedns','coredns'."]),
    (chars "add_ons.heapster.options.influxdb.pvc_name",
     [chars "Provide the name of the persistent volume claim that you will create",
      chars "after installation. If not specified, the data will be stored in",
      chars "ephemeral storage."]),
    (chars "add_ons.heapster.options.heapster.service_type",
     [chars "Specify kubernetes ServiceType. Defaults to 'ClusterIP'.",
      chars "Options: 'ClusterIP','NodePort','LoadBalancer','ExternalName'."]),
    (chars "add_ons.heapster.options.heapster.sink",
     [chars "Specify the sink to store heapster data. Defaults to an influxdb pod",
      chars "running on the cluster."]),
    (chars "add_ons.package_manager.provider",
     [chars "Options: 'helm'"]),
    (chars "add_ons.rescheduler",
     [chars "The rescheduler ensures that critical add-ons remain running on the cluster."]) ]

def cm3 : List (List Char × List (List Char)) :=
  [ (chars "cluster.admin_password",
     [chars "This password is used to login to the Kubernetes Dashboard and can also be",
      chars "used for administration without a security certificate."]),
    (chars "cluster.disable_package_installation",
     [chars "Set to true if the nodes have the required packages installed."]),
    (chars "cluster.disconnected_installation",
     [chars "Set to true if you are performing a disconnected installation."]),
    (chars "cluster.networking",
     [chars "Networking configuration of your cluster."]),
    (chars "cluster.networking.pod_cidr_block",
     [chars "Kubernetes will assign pods IPs in this range. Do not use a range that is",
      chars "already in use on your local network!"]),
    (chars "cluster.networking.service_cidr_block",
     [chars "Kubernetes will assign services IPs in this range. Do not use a range",
      chars "that is already in use by your local network or pod network!"]),
    (chars "cluster.networking.update_hosts_files",
     [chars "Set to true if your nodes cannot resolve each others' names using DNS."]),
    (chars "cluster.networking.http_proxy",
     [chars "Set the proxy server to use for HTTP connections."]),
    (chars "cluster.networking.https_proxy",
     [chars "Set the proxy server to use for HTTPs connections."]),
    (chars "cluster.networking.no_proxy",
     [chars "List of host names and/or IPs that shouldn't go through any proxy.",
      chars "All nodes' 'host' and 'IPs' are always set."]),
    (chars "cluster.certificates",
     [chars "Generated certs configuration."]),
    (chars "cluster.certificates.expiry",
     [chars "Self-signed certificate expiration period in hours; default is 2 years."]),
    (chars "cluster.certificates.ca_expiry",
     [chars "CA certificate expiration period in hours; default is 2 years."]),
    (chars "cluster.ssh",
     [chars "SSH configuration for cluster nodes."]),
    (chars "cluster.ssh.user",
     [chars "This user must be able to sudo without password."]),
    (chars "cluster.ssh.ssh_key",
     [chars "Absolute path to the ssh private key we should use to manage nodes."]),
    (chars "cluster.kube_apiserver",
     [chars "Override configuration of Kubernetes components."]),
    (chars "cluster.cloud_provider",
     [chars "Kubernetes cloud provider integration"]),
    (chars "cluster.cloud_provider.provider",
     [chars "Options: 'aws','azure','cloudstack','fake','gce','mesos','openstack',",
      chars "'ovirt','photon','rackspace','vsphere'.",
      chars "Leave empty for bare metal setups or other unsupported providers."]),
    (chars "cluster.cloud_provider.config",
     [chars "Path to the config file, leave empty if provider does not require it."]),
    (chars "docker",
     [chars "Docker daemon configuration of all cluster nodes"]),
    (chars "etcd.nodes",
     [chars "Provide the hostname and IP of each node. If the node has an IP for internal",
      chars "traffic, provide it in the internalip field. Otherwise, that field can be",
      chars "left blank."]),
    (chars "master",
     [chars "Master nodes are the ones that run the Kubernetes control plane components."]),
    (chars "worker",
     [chars "Worker nodes are the ones that will run your workloads on the cluster."]),
    (chars "ingress",
     [chars "Ingress nodes will run the ingress controllers."]),
    (chars "storage",
     [chars "Storage nodes will be used to create a distributed storage cluster that can",
      chars "be consumed by your workloads."]),
    (chars "master.load_balanced_fqdn",
     [chars "If you have set up load balancing for master nodes, enter the FQDN name here.",
      chars "Otherwise, use the IP address of a single master node."]),
    (chars "master.load_balanced_short_name",
     [chars "If you have set up load balancing for master nodes, enter the short name here.",
      chars "Otherwise, use the IP address of a single master node."]),
    (chars "docker.storage.direct_lvm",
     [chars "Configure devicemapper in direct-lvm mode (RHEL/CentOS only)."]),
    (chars "docker.storage.direct_lvm.block_device",
     [chars "Path to the block device that will be used for direct-lvm mode. This",
      chars "device will be wiped and used exclusively by docker."]),
    (chars "docker.storage.direct_lvm.enable_deferred_deletion",
     [chars "Set to true if you want to enable deferred deletion when using",
      chars "direct-lvm mode."]),
    (chars "docker_registry.server",
     [chars "IP or hostname and port for your registry."]),
    (chars "docker_registry.CA",
     [chars "Absolute path to the certificate authority that should be trusted when",
      chars "connecting to your registry."]),
    (chars "docker_registry.username",
     [chars "Leave blank for unauthenticated access."]),
    (chars "docker_registry.password",
     [chars "Leave blank for unauthenticated access."]),
    (chars "nfs",
     [chars "A set of NFS volumes for use by on-cluster persistent workloads"]),
    (chars "nfs.nfs_host",
     [chars "The host name or ip address of an NFS server."]),
    (chars "nfs.mount_path",
     [chars "The mount path of an NFS share. Must start with /"]),
    (chars "add_ons.cni.provider",
     [chars "Selecting 'custom' will result in a CNI ready cluster, however it is up to",
      chars "you to configure a plugin after the install.",
      chars "Options: 'calico','weave','contiv','custom'."]),
    (chars "add_ons.cni.options.calico.mode",
     [chars "Options: 'overlay','routed'."]),
    (chars "add_ons.cni.options.calico.log_level",
     [chars "Options: 'warning','info','debug'."]),
    (chars "add_ons.cni.options.calico.workload_mtu",
     [chars "MTU for the workload interface, configures the CNI config."]),
    (chars "add_ons.cni.options.calico.felix_input_mtu",
     [chars "MTU for the tunnel device used if IPIP is enabled."]),
    (chars "add_ons.dns.provider",
     [chars "Options: 'kubedns','coredns'."]),
    (chars "add_ons.heapster.options.influxdb.pvc_name",
     [chars "Provide the name of the persistent volume claim that you will create",
      chars "after installation. If not specified, the data will be stored in",
      chars "ephemeral storage."]),
    (chars "add_ons.heapster.options.heapster.service_type",
     [chars "Specify kubernetes ServiceType. Defaults to 'ClusterIP'.",
      chars "Options: 'ClusterIP','NodePort','LoadBalancer','ExternalName'."]),
    (chars "add_ons.heapster.options.heapster.sink",
     [chars "Specify the sink to store heapster data. Defaults to an influxdb pod",
      chars "running on the cluster."]),
    (chars "add_ons.package_manager.provider",
     [chars "Options: 'helm'"]),
    (chars "add_ons.rescheduler",
     [chars "The rescheduler ensures that critical add-ons remain running on the cluster."]) ]

def cm4 : List (List Char × List (List Char)) :=
  [ (chars "cluster.admin_password",
     [chars "This password is used to login to the Kubernetes Dashboard and can also be",
      chars "used for administration without a security certificate."]),
    (chars "cluster.disable_package_installation",
     [chars "Set to true if the nodes have the required packages installed."]),
    (chars "cluster.disconnected_installation",
     [chars "Set to true if you are performing a disconnected installation."]),
    (chars "cluster.networking",
     [chars "Networking configuration of your cluster."]),
    (chars "cluster.networking.pod_cidr_block",
     [chars "Kubernetes will assign pods IPs in this range. Do not use a range that is",
      chars "already in use on your local network!"]),
    (chars "cluster.networking.service_cidr_block",
     [chars "Kubernetes will assign services IPs in this range. Do not use a range",
      chars "that is already in use by your local network or pod network!"]),
    (chars "cluster.networking.update_hosts_files",
     [chars "Set to true if your nodes cannot resolve each others' names using DNS."]),
    (chars "cluster.networking.http_proxy",
     [chars "Set the proxy server to use for HTTP connections."]),
    (chars "cluster.networking.https_proxy",
     [chars "Set the proxy server to use for HTTPs connections."]),
    (chars "cluster.networking.no_proxy",
     [chars "List of host names and/or IPs that shouldn't go through any proxy.",
      chars "All nodes' 'host' and 'IPs' are always set."]),
    (chars "cluster.certificates",
     [chars "Generated certs configuration."]),
    (chars "cluster.certificates.expiry",
     [chars "Self-signed certificate expiration period in hours; default is 2 years."]),
    (chars "cluster.certificates.ca_expiry",
     [chars "CA certificate expiration period in hours; default is 2 years."]),
    (chars "cluster.ssh",
     [chars "SSH configuration for cluster nodes."]),
    (chars "cluster.ssh.user",
     [chars "This user must be able to sudo without password."]),
    (chars "cluster.ssh.ssh_key",
     [chars "Absolute path to the ssh private key we should use to manage nodes."]),
    (chars "cluster.kube_apiserver",
     [chars "Override configuration of Kubernetes components."]),
    (chars "cluster.cloud_provider",
     [chars "Kubernetes cloud provider integration"]),
    (chars "cluster.cloud_provider.provider",
     [chars "Options: 'aws','azure','cloudstack','fake','gce','mesos','openstack',",
      chars "'ovirt','photon','rackspace','vsphere'.",
      chars "Leave empty for bare metal setups or other unsupported providers."]),
    (chars "cluster.cloud_provider.config",
     [chars "Path to the config file, leave empty if provider does not require it."]),
    (chars "docker",
     [chars "Docker daemon configuration of all cluster nodes"]),
    (chars "etcd.nodes",
     [chars "Provide the hostname and IP of each node. If the node has an IP for internal",
      chars "traffic, provide it in the internalip field. Otherwise, that field can be",
      chars "left blank."]),
    (chars "worker",
     [chars "Worker nodes are the ones that will run your workloads on the cluster."]),
    (chars "ingress",
     [chars "Ingress nodes will run the ingress controllers."]),
    (chars "storage",
     [chars "Storage nodes will be used to create a distributed storage cluster that can",
      chars "be consumed by your workloads."]),
    (chars "master.load_balanced_fqdn",
     [chars "If you have set up load balancing for master nodes, enter the FQDN name here.",
      chars "Otherwise, use the IP address of a single master node."]),
    (chars "master.load_balanced_short_name",
     [chars "If you have set up load balancing for master nodes, enter the short name here.",
      chars "Otherwise, use the IP address of a single master node."]),
    (chars "docker.storage.direct_lvm",
     [chars "Configure devicemapper in direct-lvm mode (RHEL/CentOS only)."]),
    (chars "docker.storage.direct_lvm.block_device",
     [chars "Path to the block device that will be used for direct-lvm mode. This",
      chars "device will be wiped and used exclusively by docker."]),
    (chars "docker.storage.direct_lvm.enable_deferred_deletion",
     [chars "Set to true if you want to enable deferred deletion when using",
      chars "direct-lvm mode."]),
    (chars "docker_registry.server",
     [chars "IP or hostname and port for your registry."]),
    (chars "docker_registry.CA",
     [chars "Absolute path to the certificate authority that should be trusted when",
      chars "connecting to your registry."]),
    (chars "docker_registry.username",
     [chars "Leave blank for unauthenticated access."]),
    (chars "docker_registry.password",
     [chars "Leave blank for unauthenticated access."]),
    (chars "nfs",
     [chars "A set of NFS volumes for use by on-cluster persistent workloads"]),
    (chars "nfs.nfs_host",
     [chars "The host name or ip address of an NFS server."]),
    (chars "nfs.mount_path",
     [chars "The mount path of an NFS share. Must start with /"]),
    (chars "add_ons.cni.provider",
     [chars "Selecting 'custom' will result in a CNI ready cluster, however it is up to",
      chars "you to configure a plugin after the install.",
      chars "Options: 'calico','weave','contiv','custom'."]),
    (chars "add_ons.cni.options.calico.mode",
     [chars "Options: 'overlay','routed'."]),
    (chars "add_ons.cni.options.calico.log_level",
     [chars "Options: 'warning','info','debug'."]),
    (chars "add_ons.cni.options.calico.workload_mtu",
     [chars "MTU for the workload interface, configures the CNI config."]),
    (chars "add_ons.cni.options.calico.felix_input_mtu",
     [chars "MTU for the tunnel device used if IPIP is enabled."]),
    (chars "add_ons.dns.provider",
     [chars "Options: 'kubedns','coredns'."]),
    (chars "add_ons.heapster.options.influxdb.pvc_name",
     [chars "Provide the name of the persistent volume claim that you will create",
      chars "after installation. If not specified, the data will be stored in",
      chars "ephemeral storage."]),
    (chars "add_ons.heapster.options.heapster.service_type",
     [chars "Specify kubernetes ServiceType. Defaults to 'ClusterIP'.",
      chars "Options: 'ClusterIP','NodePort','LoadBalancer','ExternalName'."]),
    (chars "add_ons.heapster.options.heapster.sink",
     [chars "Specify the sink to store heapster data. Defaults to an influxdb pod",
      chars "running on the cluster."]),
    (chars "add_ons.package_manager.provider",
     [chars "Options: 'helm'"]),
    (chars "add_ons.rescheduler",
     [chars "The rescheduler ensures that critical add-ons remain running on the cluster."]) ]

def cm5 : List (List Char × List (List Char)) :=
  [ (chars "cluster.admin_password",
     [chars "This password is used to login to the Kubernetes Dashboard and can also be",
      chars "used for administration without a security certificate."]),
    (chars "cluster.disable_package_installation",
     [chars "Set to true if the nodes have the required packages installed."]),
    (chars "cluster.disconnected_installation",
     [chars "Set to true if you are performing a disconnected installation."]),
    (chars "cluster.networking",
     [chars "Networking configuration of your cluster."]),
    (chars "cluster.networking.pod_cidr_block",
     [chars "Kubernetes will assign pods IPs in this range. Do not use a range that is",
      chars "already in use on your local network!"]),
    (chars "cluster.networking.service_cidr_block",
     [chars "Kubernetes will assign services IPs in this range. Do not use a range",
      chars "that is already in use by your local network or pod network!"]),
    (chars "cluster.networking.update_hosts_files",
     [chars "Set to true if your nodes cannot resolve each others' names using DNS."]),
    (chars "cluster.networking.http_proxy",
     [chars "Set the proxy server to use for HTTP connections."]),
    (chars "cluster.networking.https_proxy",
     [chars "Set the proxy server to use for HTTPs connections."]),
    (chars "cluster.networking.no_proxy",
     [chars "List of host names and/or IPs that shouldn't go through any proxy.",
      chars "All nodes' 'host' and 'IPs' are always set."]),
    (chars "cluster.certificates",
     [chars "Generated certs configuration."]),
    (chars "cluster.certificates.expiry",
     [chars "Self-signed certificate expiration period in hours; default is 2 years."]),
    (chars "cluster.certificates.ca_expiry",
     [chars "CA certificate expiration period in hours; default is 2 years."]),
    (chars "cluster.ssh",
     [chars "SSH configuration for cluster nodes."]),
    (chars "cluster.ssh.user",
     [chars "This user must be able to sudo without password."]),
    (chars "cluster.ssh.ssh_key",
     [chars "Absolute path to the ssh private key we should use to manage nodes."]),
    (chars "cluster.kube_apiserver",
     [chars "Override configuration of Kubernetes components."]),
    (chars "cluster.cloud_provider",
     [chars "Kubernetes cloud provider integration"]),
    (chars "cluster.cloud_provider.provider",
     [chars "Options: 'aws','azure','cloudstack','fake','gce','mesos','openstack',",
      chars "'ovirt','photon','rackspace','vsphere'.",
      chars "Leave empty for bare metal setups or other unsupported providers."]),
    (chars "cluster.cloud_provider.config",
     [chars "Path to the config file, leave empty if provider does not require it."]),
    (chars "docker",
     [chars "Docker daemon configuration of all cluster nodes"]),
    (chars "etcd.nodes",
     [chars "Provide the hostname and IP of each node. If the node has an IP for internal",
      chars "traffic, provide it in the internalip field. Otherwise, that field can be",
      chars "left blank."]),
    (chars "ingress",
     [chars "Ingress nodes will run the ingress controllers."]),
    (chars "storage",
     [chars "Storage nodes will be used to create a distributed storage cluster that can",
      chars "be consumed by your workloads."]),
    (chars "master.load_balanced_fqdn",
     [chars "If you have set up load balancing for master nodes, enter the FQDN name here.",
      chars "Otherwise, use the IP address of a single master node."]),
    (chars "master.load_balanced_short_name",
     [chars "If you have set up load balancing for master nodes, enter the short name here.",
      chars "Otherwise, use the IP address of a single master node."]),
    (chars "docker.storage.direct_lvm",
     [chars "Configure devicemapper in direct-lvm mode (RHEL/CentOS only)."]),
    (chars "docker.storage.direct_lvm.block_device",
     [chars "Path to the block device that will be used for direct-lvm mode. This",
      chars "device will be wiped and used exclusively by docker."]),
    (chars "docker.storage.direct_lvm.enable_deferred_deletion",
     [chars "Set to true if you want to enable deferred deletion when using",
      chars "direct-lvm mode."]),
    (chars "docker_registry.server",
     [chars "IP or hostname and port for your registry."]),
    (chars "docker_registry.CA",
     [chars "Absolute path to the certificate authority that should be trusted when",
      chars "connecting to your registry."]),
    (chars "docker_registry.username",
     [chars "Leave blank for unauthenticated access."]),
    (chars "docker_registry.password",
     [chars "Leave blank for unauthenticated access."]),
    (chars "nfs",
     [chars "A set of NFS volumes for use by on-cluster persistent workloads"]),
    (chars "nfs.nfs_host",
     [chars "The host name or ip address of an NFS server."]),
    (chars "nfs.mount_path",
     [chars "The mount path of an NFS share. Must start with /"]),
    (chars "add_ons.cni.provider",
     [chars "Selecting 'custom' will result in a CNI ready cluster, however it is up to",
      chars "you to configure a plugin after the install.",
      chars "Options: 'calico','weave','contiv','custom'."]),
    (chars "add_ons.cni.options.calico.mode",
     [chars "Options: 'overlay','routed'."]),
    (chars "add_ons.cni.options.calico.log_level",
     [chars "Options: 'warning','info','debug'."]),
    (chars "add_ons.cni.options.calico.workload_mtu",
     [chars "MTU for the workload interface, configures the CNI config."]),
    (chars "add_ons.cni.options.calico.felix_input_mtu",
     [chars "MTU for the tunnel device used if IPIP is enabled."]),
    (chars "add_ons.dns.provider",
     [chars "Options: 'kubedns','coredns'."]),
    (chars "add_ons.heapster.options.influxdb.pvc_name",
     [chars "Provide the name of the persistent volume claim that you will create",
      chars "after installation. If not specified, the data will be stored in",
      chars "ephemeral storage."]),
    (chars "add_ons.heapster.options.heapster.service_type",
     [chars "Specify kubernetes ServiceType. Defaults to 'ClusterIP'.",
      chars "Options: 'ClusterIP','NodePort','LoadBalancer','ExternalName'."]),
    (chars "add_ons.heapster.options.heapster.sink",
     [chars "Specify the sink to store heapster data. Defaults to an influxdb pod",
      chars "running on the cluster."]),
    (chars "add_ons.package_manager.provider",
     [chars "Options: 'helm'"]),
    (chars "add_ons.rescheduler",
     [chars "The rescheduler ensures that critical add-ons remain running on the cluster."]) ]

def cm6 : List (List Char × List (List Char)) :=
  [ (chars "cluster.admin_password",
     [chars "This password is used to login to the Kubernetes Dashboard and can also be",
      chars "used for administration without a security certificate."]),
    (chars "cluster.disable_package_installation",
     [chars "Set to true if the nodes have the required packages installed."]),
    (chars "cluster.disconnected_installation",
     [chars "Set to true if you are performing a disconnected installation."]),
    (chars "cluster.networking",
     [chars "Networking configuration of your cluster."]),
    (chars "cluster.networking.pod_cidr_block",
     [chars "Kubernetes will assign pods IPs in this range. Do not use a range that is",
      chars "already in use on your local network!"]),
    (chars "cluster.networking.service_cidr_block",
     [chars "Kubernetes will assign services IPs in this range. Do not use a range",
      chars "that is already in use by your local network or pod network!"]),
    (chars "cluster.networking.update_hosts_files",
     [chars "Set to true if your nodes cannot resolve each others' names using DNS."]),
    (chars "cluster.networking.http_proxy",
     [chars "Set the proxy server to use for HTTP connections."]),
    (chars "cluster.networking.https_proxy",
     [chars "Set the proxy server to use for HTTPs connections."]),
    (chars "cluster.networking.no_proxy",
     [chars "List of host names and/or IPs that shouldn't go through any proxy.",
      chars "All nodes' 'host' and 'IPs' are always set."]),
    (chars "cluster.certificates",
     [chars "Generated certs configuration."]),
    (chars "cluster.certificates.expiry",
     [chars "Self-signed certificate expiration period in hours; default is 2 years."]),
    (chars "cluster.certificates.ca_expiry",
     [chars "CA certificate expiration period in hours; default is 2 years."]),
    (chars "cluster.ssh",
     [chars "SSH configuration for cluster nodes."]),
    (chars "cluster.ssh.user",
     [chars "This user must be able to sudo without password."]),
    (chars "cluster.ssh.ssh_key",
     [chars "Absolute path to the ssh private key we should use to manage nodes."]),
    (chars "cluster.kube_apiserver",
     [chars "Override configuration of Kubernetes components."]),
    (chars "cluster.cloud_provider",
     [chars "Kubernetes cloud provider integration"]),
    (chars "cluster.cloud_provider.provider",
     [chars "Options: 'aws','azure','cloudstack','fake','gce','mesos','openstack',",
      chars "'ovirt','photon','rackspace','vsphere'.",
      chars "Leave empty for bare metal setups or other unsupported providers."]),
    (chars "cluster.cloud_provider.config",
     [chars "Path to the config file, leave empty if provider does not require it."]),
    (chars "docker",
     [chars "Docker daemon configuration of all cluster nodes"]),
    (chars "etcd.nodes",
     [chars "Provide the hostname and IP of each node. If the node has an IP for internal",
      chars "traffic, provide it in the internalip field. Otherwise, that field can be",
      chars "left blank."]),
    (chars "storage",
     [chars "Storage nodes will be used to create a distributed storage cluster that can",
      chars "be consumed by your workloads."]),
    (chars "master.load_balanced_fqdn",
     [chars "If you have set up load balancing for master nodes, enter the FQDN name here.",
      chars "Otherwise, use the IP address of a single master node."]),
    (chars "master.load_balanced_short_name",
     [chars "If you have set up load balancing for master nodes, enter the short name here.",
      chars "Otherwise, use the IP address of a single master node."]),
    (chars "docker.storage.direct_lvm",
     [chars "Configure devicemapper in direct-lvm mode (RHEL/CentOS only)."]),
    (chars "docker.storage.direct_lvm.block_device",
     [chars "Path to the block device that will be used for direct-lvm mode. This",
      chars "device will be wiped and used exclusively by docker."]),
    (chars "docker.storage.direct_lvm.enable_deferred_deletion",
     [chars "Set to true if you want to enable deferred deletion when using",
      chars "direct-lvm mode."]),
    (chars "docker_registry.server",
     [chars "IP or hostname and port for your registry."]),
    (chars "docker_registry.CA",
     [chars "Absolute path to the certificate authority that should be trusted when",
      chars "connecting to your registry."]),
    (chars "docker_registry.username",
     [chars "Leave blank for unauthenticated access."]),
    (chars "docker_registry.password",
     [chars "Leave blank for unauthenticated access."]),
    (chars "nfs",
     [chars "A set of NFS volumes for use by on-cluster persistent workloads"]),
    (chars "nfs.nfs_host",
     [chars "The host name or ip address of an NFS server."]),
    (chars "nfs.mount_path",
     [chars "The mount path of an NFS share. Must start with /"]),
    (chars "add_ons.cni.provider",
     [chars "Selecting 'custom' will result in a CNI ready cluster, however it is up to",
      chars "you to configure a plugin after the install.",
      chars "Options: 'calico','weave','contiv','custom'."]),
    (chars "add_ons.cni.options.calico.mode",
     [chars "Options: 'overlay','routed'."]),
    (chars "add_ons.cni.options.calico.log_level",
     [chars "Options: 'warning','info','debug'."]),
    (chars "add_ons.cni.options.calico.workload_mtu",
     [chars "MTU for the workload interface, configures the CNI config."]),
    (chars "add_ons.cni.options.calico.felix_input_mtu",
     [chars "MTU for the tunnel device used if IPIP is enabled."]),
    (chars "add_ons.dns.provider",
     [chars "Options: 'kubedns','coredns'."]),
    (chars "add_ons.heapster.options.influxdb.pvc_name",
     [chars "Provide the name of the persistent volume claim that you will create",
      chars "after installation. If not specified, the data will be stored in",
      chars "ephemeral storage."]),
    (chars "add_ons.heapster.options.heapster.service_type",
     [chars "Specify kubernetes ServiceType. Defaults to 'ClusterIP'.",
      chars "Options: 'ClusterIP','NodePort','LoadBalancer','ExternalName'."]),
    (chars "add_ons.heapster.options.heapster.sink",
     [chars "Specify the sink to store heapster data. Defaults to an influxdb pod",
      chars "running on the cluster."]),
    (chars "add_ons.package_manager.provider",
     [chars "Options: 'helm'"]),
    (chars "add_ons.rescheduler",
     [chars "The rescheduler ensures that critical add-ons remain running on the cluster."]) ]

def cm7 : List (List Char × List (List Char)) :=
  [ (chars "cluster.admin_password",
     [chars "This password is used to login to the Kubernetes Dashboard and can also be",
      chars "used for administration without a security certificate."]),
    (chars "cluster.disable_package_installation",
     [chars "Set to true if the nodes have the required packages installed."]),
    (chars "cluster.disconnected_installation",
     [chars "Set to true if you are performing a disconnected installation."]),
    (chars "cluster.networking",
     [chars "Networking configuration of your cluster."]),
    (chars "cluster.networking.pod_cidr_block",
     [chars "Kubernetes will assign pods IPs in this range. Do not use a range that is",
      chars "already in use on your local network!"]),
    (chars "cluster.networking.service_cidr_block",
     [chars "Kubernetes will assign services IPs in this range. Do not use a range",
      chars "that is already in use by your local network or pod network!"]),
    (chars "cluster.networking.update_hosts_files",
     [chars "Set to true if your nodes cannot resolve each others' names using DNS."]),
    (chars "cluster.networking.http_proxy",
     [chars "Set the proxy server to use for HTTP connections."]),
    (chars "cluster.networking.https_proxy",
     [chars "Set the proxy server to use for HTTPs connections."]),
    (chars "cluster.networking.no_proxy",
     [chars "List of host names and/or IPs that shouldn't go through any proxy.",
      chars "All nodes' 'host' and 'IPs' are always set."]),
    (chars "cluster.certificates",
     [chars "Generated certs configuration."]),
    (chars "cluster.certificates.expiry",
     [chars "Self-signed certificate expiration period in hours; default is 2 years."]),
    (chars "cluster.certificates.ca_expiry",
     [chars "CA certificate expiration period in hours; default is 2 years."]),
    (chars "cluster.ssh",
     [chars "SSH configuration for cluster nodes."]),
    (chars "cluster.ssh.user",
     [chars "This user must be able to sudo without password."]),
    (chars "cluster.ssh.ssh_key",
     [chars "Absolute path to the ssh private key we should use to manage nodes."]),
    (chars "cluster.kube_apiserver",
     [chars "Override configuration of Kubernetes components."]),
    (chars "cluster.cloud_provider",
     [chars "Kubernetes cloud provider integration"]),
    (chars "cluster.cloud_provider.provider",
     [chars "Options: 'aws','azure','cloudstack','fake','gce','mesos','openstack',",
      chars "'ovirt','photon','rackspace','vsphere'.",
      chars "Leave empty for bare metal setups or other unsupported providers."]),
    (chars "cluster.cloud_provider.config",
     [chars "Path to the config file, leave empty if provider does not require it."]),
    (chars "docker",
     [chars "Docker daemon configuration of all cluster nodes"]),
    (chars "etcd.nodes",
     [chars "Provide the hostname and IP of each node. If the node has an IP for internal",
      chars "traffic, provide it in the internalip field. Otherwise, that field can be",
      chars "left blank."]),
    (chars "master.load_balanced_fqdn",
     [chars "If you have set up load balancing for master nodes, enter the FQDN name here.",
      chars "Otherwise, use the IP address of a single master node."]),
    (chars "master.load_balanced_short_name",
     [chars "If you have set up load balancing for master nodes, enter the short name here.",
      chars "Otherwise, use the IP address of a single master node."]),
    (chars "docker.storage.direct_lvm",
     [chars "Configure devicemapper in direct-lvm mode (RHEL/CentOS only)."]),
    (chars "docker.storage.direct_lvm.block_device",
     [chars "Path to the block device that will be used for direct-lvm mode. This",
      chars "device will be wiped and used exclusively by docker."]),
    (chars "docker.storage.direct_lvm.enable_deferred_deletion",
     [chars "Set to true if you want to enable deferred deletion when using",
      chars "direct-lvm mode."]),
    (chars "docker_registry.server",
     [chars "IP or hostname and port for your registry."]),
    (chars "docker_registry.CA",
     [chars "Absolute path to the certificate authority that should be trusted when",
      chars "connecting to your registry."]),
    (chars "docker_registry.username",
     [chars "Leave blank for unauthenticated access."]),
    (chars "docker_registry.password",
     [chars "Leave blank for unauthenticated access."]),
    (chars "nfs",
     [chars "A set of NFS volumes for use by on-cluster persistent workloads"]),
    (chars "nfs.nfs_host",
     [chars "The host name or ip address of an NFS server."]),
    (chars "nfs.mount_path",
     [chars "The mount path of an NFS share. Must start with /"]),
    (chars "add_ons.cni.provider",
     [chars "Selecting 'custom' will result in a CNI ready cluster, however it is up to",
      chars "you to configure a plugin after the install.",
      chars "Options: 'calico','weave','contiv','custom'."]),
    (chars "add_ons.cni.options.calico.mode",
     [chars "Options: 'overlay','routed'."]),
    (chars "add_ons.cni.options.calico.log_level",
     [chars "Options: 'warning','info','debug'."]),
    (chars "add_ons.cni.options.calico.workload_mtu",
     [chars "MTU for the workload interface, configures the CNI config."]),
    (chars "add_ons.cni.options.calico.felix_input_mtu",
     [chars "MTU for the tunnel device used if IPIP is enabled."]),
    (chars "add_ons.dns.provider",
     [chars "Options: 'kubedns','coredns'."]),
    (chars "add_ons.heapster.options.influxdb.pvc_name",
     [chars "Provide the name of the persistent volume claim that you will create",
      chars "after installation. If not specified, the data will be stored in",
      chars "ephemeral storage."]),
    (chars "add_ons.heapster.options.heapster.service_type",
     [chars "Specify kubernetes ServiceType. Defaults to 'ClusterIP'.",
      chars "Options: 'ClusterIP','NodePort','LoadBalancer','ExternalName'."]),
    (chars "add_ons.heapster.options.heapster.sink",
     [chars "Specify the sink to store heapster data. Defaults to an influxdb pod",
      chars "running on the cluster."]),
    (chars "add_ons.package_manager.provider",
     [chars "Options: 'helm'"]),
    (chars "add_ons.rescheduler",
     [chars "The rescheduler ensures that critical add-ons remain running on the cluster."]) ]

def cm8 : List (List Char × List (List Char)) :=
  [ (chars "cluster.admin_password",
     [chars "This password is used to login to the Kubernetes Dashboard and can also be",
      chars "used for administration without a security certificate."]),
    (chars "cluster.disable_package_installation",
     [chars "Set to true if the nodes have the required packages installed."]),
    (chars "cluster.disconnected_installation",
     [chars "Set to true if you are performing a disconnected installation."]),
    (chars "cluster.networking",
     [chars "Networking configuration of your cluster."]),
    (chars "cluster.networking.pod_cidr_block",
     [chars "Kubernetes will assign pods IPs in this range. Do not use a range that is",
      chars "already in use on your local network!"]),
    (chars "cluster.networking.service_cidr_block",
     [chars "Kubernetes will assign services IPs in this range. Do not use a range",
      chars "that is already in use by your local network or pod network!"]),
    (chars "cluster.networking.update_hosts_files",
     [chars "Set to true if your nodes cannot resolve each others' names using DNS."]),
    (chars "cluster.networking.http_proxy",
     [chars "Set the proxy server to use for HTTP connections."]),
    (chars "cluster.networking.https_proxy",
     [chars "Set the proxy server to use for HTTPs connections."]),
    (chars "cluster.networking.no_proxy",
     [chars "List of host names and/or IPs that shouldn't go through any proxy.",
      chars "All nodes' 'host' and 'IPs' are always set."]),
    (chars "cluster.certificates",
     [chars "Generated certs configuration."]),
    (chars "cluster.certificates.expiry",
     [chars "Self-signed certificate expiration period in hours; default is 2 years."]),
    (chars "cluster.certificates.ca_expiry",
     [chars "CA certificate expiration period in hours; default is 2 years."]),
    (chars "cluster.ssh",
     [chars "SSH configuration for cluster nodes."]),
    (chars "cluster.ssh.user",
     [chars "This user must be able to sudo without password."]),
    (chars "cluster.ssh.ssh_key",
     [chars "Absolute path to the ssh private key we should use to manage nodes."]),
    (chars "cluster.kube_apiserver",
     [chars "Override configuration of Kubernetes components."]),
    (chars "cluster.cloud_provider",
     [chars "Kubernetes cloud provider integration"]),
    (chars "cluster.cloud_provider.provider",
     [chars "Options: 'aws','azure','cloudstack','fake','gce','mesos','openstack',",
      chars "'ovirt','photon','rackspace','vsphere'.",
      chars "Leave empty for bare metal setups or other unsupported providers."]),
    (chars "cluster.cloud_provider.config",
     [chars "Path to the config file, leave empty if provider does not require it."]),
    (chars "docker",
     [chars "Docker daemon configuration of all cluster nodes"]),
    (chars "etcd.nodes",
     [chars "Provide the hostname and IP of each node. If the node has an IP for internal",
      chars "traffic, provide it in the internalip field. Otherwise, that field can be",
      chars "left blank."]),
    (chars "master.load_balanced_fqdn",
     [chars "If you have set up load balancing for master nodes, enter the FQDN name here.",
      chars "Otherwise, use the IP address of a single master node."]),
    (chars "master.load_balanced_short_name",
     [chars "If you have set up load balancing for master nodes, enter the short name here.",
      chars "Otherwise, use the IP address of a single master node."]),
    (chars "docker.storage.direct_lvm",
     [chars "Configure devicemapper in direct-lvm mode (RHEL/CentOS only)."]),
    (chars "docker.storage.direct_lvm.block_device",
     [chars "Path to the block device that will be used for direct-lvm mode. This",
      chars "device will be wiped and used exclusively by docker."]),
    (chars "docker.storage.direct_lvm.enable_deferred_deletion",
     [chars "Set to true if you want to enable deferred deletion when using",
      chars "direct-lvm mode."]),
    (chars "docker_registry.server",
     [chars "IP or hostname and port for your registry."]),
    (chars "docker_registry.CA",
     [chars "Absolute path to the certificate authority that should be trusted when",
      chars "connecting to your registry."]),
    (chars "docker_registry.username",
     [chars "Leave blank for unauthenticated access."]),
    (chars "docker_registry.password",
     [chars "Leave blank for unauthenticated access."]),
    (chars "nfs.nfs_host",
     [chars "The host name or ip address of an NFS server."]),
    (chars "nfs.mount_path",
     [chars "The mount path of an NFS share. Must start with /"]),
    (chars "add_ons.cni.provider",
     [chars "Selecting 'custom' will result in a CNI ready cluster, however it is up to",
      chars "you to configure a plugin after the install.",
      chars "Options: 'calico','weave','contiv','custom'."]),
    (chars "add_ons.cni.options.calico.mode",
     [chars "Options: 'overlay','routed'."]),
    (chars "add_ons.cni.options.calico.log_level",
     [chars "Options: 'warning','info','debug'."]),
    (chars "add_ons.cni.options.calico.workload_mtu",
     [chars "MTU for the workload interface, configures the CNI config."]),
    (chars "add_ons.cni.options.calico.felix_input_mtu",
     [chars "MTU for the tunnel device used if IPIP is enabled."]),
    (chars "add_ons.dns.provider",
     [chars "Options: 'kubedns','coredns'."]),
    (chars "add_ons.heapster.options.influxdb.pvc_name",
     [chars "Provide the name of the persistent volume claim that you will create",
      chars "after installation. If not specified, the data will be stored in",
      chars "ephemeral storage."]),
    (chars "add_ons.heapster.options.heapster.service_type",
     [chars "Specify kubernetes ServiceType. Defaults to 'ClusterIP'.",
      chars "Options: 'ClusterIP','NodePort','LoadBalancer','ExternalName'."]),
    (chars "add_ons.heapster.options.heapster.sink",
     [chars "Specify the sink to store heapster data. Defaults to an influxdb pod",
      chars "running on the cluster."]),
    (chars "add_ons.package_manager.provider",
     [chars "Options: 'helm'"]),
    (chars "add_ons.rescheduler",
     [chars "The rescheduler ensures that critical add-ons remain running on the cluster."]) ]

/-- The scan state right after a top-level key line. -/
def topKeyState (k : String) (cm : List (List Char × List (List Char))) : ScanState :=
  { stack := [chars k], prevIndent := 0, anl := true, comments := cm }

/-- The scan state inside a node-entry list of group `g`. -/
def insideNodes (g : String) (cm : List (List Char × List (List Char))) : ScanState :=
  { stack := [chars g, chars "host", chars "internalip"], prevIndent := 2,
    anl := true, comments := cm }

/-- Intermediate states within one node entry. -/
def hostState (g : String) (cm : List (List Char × List (List Char))) : ScanState :=
  { stack := [chars g, chars "host"], prevIndent := 1, anl := true, comments := cm }

def hostIpState (g : String) (cm : List (List Char × List (List Char))) : ScanState :=
  { stack := [chars g, chars "host", chars "ip"], prevIndent := 2,
    anl := true, comments := cm }

/-- The scan state after a group segment: depends on whether the node list
was empty. -/
def stateAfterG (g : String) (cm : List (List Char × List (List Char))) (e : Nat) :
    ScanState :=
  if e = 0 then
    { stack := [chars g, chars "nodes"], prevIndent := 1, anl := true, comments := cm }
  else insideNodes g cm

theorem scanNodeEntriesGen (g : String) (cm : List (List Char × List (List Char)))
    (o1 o2 o3 : List (List Char))
    (h1 : scanStep (insideNodes g cm) (chars "  - host: ") =
      Except.ok (hostState g cm, o1))
    (h2 : scanStep (hostState g cm) (chars "    ip: ") =
      Except.ok (hostIpState g cm, o2))
    (h3 : scanStep (hostIpState g cm) (chars "    internalip: ") =
      Except.ok (insideNodes g cm, o3)) :
    ∀ n, ∃ out, scanLines (insideNodes g cm) (nodeLines (List.replicate n node0)) =
      Except.ok (insideNodes g cm, out) := by
  intro n
  induction n with
  | zero => exact ⟨[], rfl⟩
  | succ k ih =>
    obtain ⟨o, ho⟩ := ih
    exact ⟨_, scanLines_cons_of h1 (scanLines_cons_of h2 (scanLines_cons_of h3 ho))⟩

set_option maxHeartbeats 2000000 in
theorem scanNodeEntries_etcd :
    ∀ n, ∃ out, scanLines (insideNodes "etcd" cm3) (nodeLines (List.replicate n node0)) =
      Except.ok (insideNodes "etcd" cm3, out) :=
  scanNodeEntriesGen "etcd" cm3 _ _ _ rfl rfl rfl

set_option maxHeartbeats 2000000 in
theorem scanGroupSeg_etcd (e : Nat) (st : ScanState)
    (hlen : st.stack.length = st.prevIndent.toNat + 1)
    (hp : 1 ≤ st.prevIndent)
    (hcm : st.comments = cm2) :
    ∃ out, scanLines st
        (groupLines "etcd" { expectedCount := e, nodes := List.replicate e node0 }) =
      Except.ok (stateAfterG "etcd" cm3 e, out) := by
  have h1 : scanStep st (kline 0 "etcd") = Except.ok (topKeyState "etcd" cm3,
      [[]] ++ getCommentedLine (kline 0 "etcd")
        [chars "Etcd nodes are the ones that run the etcd distributed key-value database."]
        false) := by
    have h0 := scanTopLine "etcd"
      [chars "Etcd nodes are the ones that run the etcd distributed key-value database."]
      st hlen hp rfl rfl (by rw [hcm]; rfl)
    rw [h0, hcm]
    rfl
  cases e with
  | zero =>
    obtain ⟨o2, h2⟩ : ∃ o, scanLines (topKeyState "etcd" cm3)
        [vline 1 "expected_count" (natRepr 0), vline 1 "nodes" (chars "[]")] =
        Except.ok (stateAfterG "etcd" cm3 0, o) := ⟨_, rfl⟩
    exact ⟨_, scanLines_cons_of h1 h2⟩
  | succ k =>
    obtain ⟨o2, h2⟩ : ∃ o, scanLines (topKeyState "etcd" cm3)
        [vline 1 "expected_count" (natRepr (k + 1)), kline 1 "nodes",
         chars "  - host: ", chars "    ip: ", chars "    internalip: "] =
        Except.ok (insideNodes "etcd" cm3, o) := ⟨_, rfl⟩
    obtain ⟨o3, h3⟩ := scanNodeEntries_etcd k
    exact ⟨_, scanLines_cons_of h1 (scanLines_append_ok h2 h3)⟩

set_option maxHeartbeats 2000000 in
theorem scanNodeEntries_master :
    ∀ n, ∃ out, scanLines (insideNodes "master" cm4) (nodeLines (List.replicate n node0)) =
      Except.ok (insideNodes "master" cm4, out) :=
  scanNodeEntriesGen "master" cm4 _ _ _ rfl rfl rfl


set_option maxHeartbeats 2000000 in
theorem scanGroupSeg_master (e : Nat) (st : ScanState)
    (hlen : st.stack.length = st.prevIndent.toNat + 1)
    (hp : 1 ≤ st.prevIndent)
    (hcm : st.comments = cm3) :
    ∃ out, scanLines st
        (groupLines "master" { expectedCount := e, nodes := List.replicate e node0 }) =
      Except.ok (stateAfterG "master" cm4 e, out) := by
  have h1 : scanStep st (kline 0 "master") = Except.ok (topKeyState "master" cm4,
      [[]] ++ getCommentedLine (kline 0 "master") [chars "Master nodes are the ones that run the Kubernetes control plane components."] false) := by
    have h0 := scanTopLine "master" [chars "Master nodes are the ones that run the Kubernetes control plane components."] st hlen hp rfl rfl (by rw [hcm]; rfl)
    rw [h0, hcm]
    rfl
  cases e with
  | zero =>
    obtain ⟨o2, h2⟩ : ∃ o, scanLines (topKeyState "master" cm4)
        [vline 1 "expected_count" (natRepr 0), vline 1 "nodes" (chars "[]")] =
        Except.ok (stateAfterG "master" cm4 0, o) := ⟨_, rfl⟩
    exact ⟨_, scanLines_cons_of h1 h2⟩
  | succ k =>
    obtain ⟨o2, h2⟩ : ∃ o, scanLines (topKeyState "master" cm4)
        [vline 1 "expected_count" (natRepr (k + 1)), kline 1 "nodes",
         chars "  - host: ", chars "    ip: ", chars "    internalip: "] =
        Except.ok (insideNodes "master" cm4, o) := ⟨_, rfl⟩
    obtain ⟨o3, h3⟩ := scanNodeEntries_master k
    exact ⟨_, scanLines_cons_of h1 (scanLines_append_ok h2 h3)⟩


set_option maxHeartbeats 2000000 in
theorem scanNodeEntries_worker :
    ∀ n, ∃ out, scanLines (insideNodes "worker" cm5) (nodeLines (List.replicate n node0)) =
      Except.ok (insideNodes "worker" cm5, out) :=
  scanNodeEntriesGen "worker" cm5 _ _ _ rfl rfl rfl


set_option maxHeartbeats 2000000 in
theorem scanGroupSeg_worker (e : Nat) (st : ScanState)
    (hlen : st.stack.length = st.prevIndent.toNat + 1)
    (hp : 1 ≤ st.prevIndent)
    (hcm : st.comments = cm4) :
    ∃ out, scanLines st
        (groupLines "worker" { expectedCount := e, nodes := List.replicate e node0 }) =
      Except.ok (stateAfterG "worker" cm5 e, out) := by
  have h1 : scanStep st (kline 0 "worker") = Except.ok (topKeyState "worker" cm5,
      [[]] ++ getCommentedLine (kline 0 "worker") [chars "Worker nodes are the ones that will run your workloads on the cluster."] false) := by
    have h0 := scanTopLine "worker" [chars "Worker nodes are the ones that will run your workloads on the cluster."] st hlen hp rfl rfl (by rw [hcm]; rfl)
    rw [h0, hcm]
    rfl
  cases e with
  | zero =>
    obtain ⟨o2, h2⟩ : ∃ o, scanLines (topKeyState "worker" cm5)
        [vline 1 "expected_count" (natRepr 0), vline 1 "nodes" (chars "[]")] =
        Except.ok (stateAfterG "worker" cm5 0, o) := ⟨_, rfl⟩
    exact ⟨_, scanLines_cons_of h1 h2⟩
  | succ k =>
    obtain ⟨o2, h2⟩ : ∃ o, scanLines (topKeyState "worker" cm5)
        [vline 1 "expected_count" (natRepr (k + 1)), kline 1 "nodes",
         chars "  - host: ", chars "    ip: ", chars "    internalip: "] =
        Except.ok (insideNodes "worker" cm5, o) := ⟨_, rfl⟩
    obtain ⟨o3, h3⟩ := scanNodeEntries_worker k
    exact ⟨_, scanLines_cons_of h1 (scanLines_append_ok h2 h3)⟩


set_option maxHeartbeats 2000000 in
theorem scanNodeEntries_ingress :
    ∀ n, ∃ out, scanLines (insideNodes "ingress" cm6) (nodeLines (List.replicate n node0)) =
      Except.ok (insideNodes "ingress" cm6, out) :=
  scanNodeEntriesGen "ingress" cm6 _ _ _ rfl rfl rfl


set_option maxHeartbeats 2000000 in
theorem scanGroupSeg_ingress (e : Nat) (st : ScanState)
    (hlen : st.stack.length = st.prevIndent.toNat + 1)
    (hp : 1 ≤ st.prevIndent)
    (hcm : st.comments = cm5) :
    ∃ out, scanLines st
        (groupLines "ingress" { expectedCount := e, nodes := List.replicate e node0 }) =
      Except.ok (stateAfterG "ingress" cm6 e, out) := by
  have h1 : scanStep st (kline 0 "ingress") = Except.ok (topKeyState "ingress" cm6,
      [[]] ++ getCommentedLine (kline 0 "ingress") [chars "Ingress nodes will run the ingress controllers."] false) := by
    have h0 := scanTopLine "ingress" [chars "Ingress nodes will run the ingress controllers."] st hlen hp rfl rfl (by rw [hcm]; rfl)
    rw [h0, hcm]
    rfl
  cases e with
  | zero =>
    obtain ⟨o2, h2⟩ : ∃ o, scanLines (topKeyState "ingress" cm6)
        [vline 1 "expected_count" (natRepr 0), vline 1 "nodes" (chars "[]")] =
        Except.ok (stateAfterG "ingress" cm6 0, o) := ⟨_, rfl⟩
    exact ⟨_, scanLines_cons_of h1 h2⟩
  | succ k =>
    obtain ⟨o2, h2⟩ : ∃ o, scanLines (topKeyState "ingress" cm6)
        [vline 1 "expected_count" (natRepr (k + 1)), kline 1 "nodes",
         chars "  - host: ", chars "    ip: ", chars "    internalip: "] =
        Except.ok (insideNodes "ingress" cm6, o) := ⟨_, rfl⟩
    obtain ⟨o3, h3⟩ := scanNodeEntries_ingress k
    exact ⟨_, scanLines_cons_of h1 (scanLines_append_ok h2 h3)⟩


set_option maxHeartbeats 2000000 in
theorem scanNodeEntries_storage :
    ∀ n, ∃ out, scanLines (insideNodes "storage" cm7) (nodeLines (List.replicate n node0)) =
      Except.ok (insideNodes "storage" cm7, out) :=
  scanNodeEntriesGen "storage" cm7 _ _ _ rfl rfl rfl


set_option maxHeartbeats 2000000 in
theorem scanGroupSeg_storage (e : Nat) (st : ScanState)
    (hlen : st.stack.length = st.prevIndent.toNat + 1)
    (hp : 1 ≤ st.prevIndent)
    (hcm : st.comments = cm6) :
    ∃ out, scanLines st
        (groupLines "storage" { expectedCount := e, nodes := List.replicate e node0 }) =
      Except.ok (stateAfterG "storage" cm7 e, out) := by
  have h1 : scanStep st (kline 0 "storage") = Except.ok (topKeyState "storage" cm7,
      [[]] ++ getCommentedLine (kline 0 "storage") [chars "Storage nodes will be used to create a distributed storage cluster that can",
       chars "be consumed by your workloads."] false) := by
    have h0 := scanTopLine "storage" [chars "Storage nodes will be used to create a distributed storage cluster that can",
       chars "be consumed by your workloads."] st hlen hp rfl rfl (by rw [hcm]; rfl)
    rw [h0, hcm]
    rfl
  cases e with
  | zero =>
    obtain ⟨o2, h2⟩ : ∃ o, scanLines (topKeyState "storage" cm7)
        [vline 1 "expected_count" (natRepr 0), vline 1 "nodes" (chars "[]")] =
        Except.ok (stateAfterG "storage" cm7 0, o) := ⟨_, rfl⟩
    exact ⟨_, scanLines_cons_of h1 h2⟩
  | succ k =>
    obtain ⟨o2, h2⟩ : ∃ o, scanLines (topKeyState "storage" cm7)
        [vline 1 "expected_count" (natRepr (k + 1)), kline 1 "nodes",
         chars "  - host: ", chars "    ip: ", chars "    internalip: "] =
        Except.ok (insideNodes "storage" cm7, o) := ⟨_, rfl⟩
    obtain ⟨o3, h3⟩ := scanNodeEntries_storage k
    exact ⟨_, scanLines_cons_of h1 (scanLines_append_ok h2 h3)⟩

/-- Invariants of the post-group scan state, used to chain segments. -/
theorem stateAfterG_invs (g : String) (cm : List (List Char × List (List Char))) (e : Nat) :
    (stateAfterG g cm e).stack.length = (stateAfterG g cm e).prevIndent.toNat + 1 ∧
    1 ≤ (stateAfterG g cm e).prevIndent ∧ (stateAfterG g cm e).comments = cm := by
  unfold stateAfterG insideNodes
  split
  · exact ⟨rfl, by change (1 : Int) ≤ 1; decide, rfl⟩
  · exact ⟨rfl, by change (1 : Int) ≤ 2; decide, rfl⟩

/-- The scan state inside the NFS volume list. -/
def insideVols (cm : List (List Char × List (List Char))) : ScanState :=
  { stack := [chars "nfs", chars "nfs_host", chars "mount_path"], prevIndent := 2,
    anl := true, comments := cm }

def volHostState (cm : List (List Char × List (List Char))) : ScanState :=
  { stack := [chars "nfs", chars "nfs_host"], prevIndent := 1, anl := true, comments := cm }

/-- The scan state after an empty NFS volume list. -/
def nfsVolsEmptyState : ScanState :=
  { stack := [chars "nfs", chars "volumes"], prevIndent := 1, anl := true, comments := cm8 }

theorem scanVolEntriesGen (cm : List (List Char × List (List Char)))
    (o1 o2 : List (List Char))
    (h1 : scanStep (insideVols cm) (chars "  - nfs_host: ") =
      Except.ok (volHostState cm, o1))
    (h2 : scanStep (volHostState cm) (chars "    mount_path: /") =
      Except.ok (insideVols cm, o2)) :
    ∀ n, ∃ out, scanLines (insideVols cm) (volLines (List.replicate n vol0)) =
      Except.ok (insideVols cm, out) := by
  intro n
  induction n with
  | zero => exact ⟨[], rfl⟩
  | succ k ih =>
    obtain ⟨o, ho⟩ := ih
    exact ⟨_, scanLines_cons_of h1 (scanLines_cons_of h2 ho)⟩

set_option maxHeartbeats 2000000 in
theorem scanVolEntries_nfs :
    ∀ n, ∃ out, scanLines (insideVols cm8) (volLines (List.replicate n vol0)) =
      Except.ok (insideVols cm8, out) :=
  scanVolEntriesGen cm8 _ _ rfl rfl

set_option maxHeartbeats 2000000 in
theorem scanNFSSeg (v : Nat) (st : ScanState)
    (hlen : st.stack.length = st.prevIndent.toNat + 1)
    (hp : 1 ≤ st.prevIndent)
    (hcm : st.comments = cm7) :
    ∃ stf out, scanLines st (nfsLines { volumes := List.replicate v vol0 }) =
      Except.ok (stf, out) := by
  have h1 : scanStep st (kline 0 "nfs") = Except.ok (topKeyState "nfs" cm8,
      [[]] ++ getCommentedLine (kline 0 "nfs")
        [chars "A set of NFS volumes for use by on-cluster persistent workloads"] false) := by
    have h0 := scanTopLine "nfs"
      [chars "A set of NFS volumes for use by on-cluster persistent workloads"]
      st hlen hp rfl rfl (by rw [hcm]; rfl)
    rw [h0, hcm]
    rfl
  cases v with
  | zero =>
    obtain ⟨o2, h2⟩ : ∃ o, scanLines (topKeyState "nfs" cm8)
        [vline 1 "volumes" (chars "[]")] =
        Except.ok (nfsVolsEmptyState, o) := ⟨_, rfl⟩
    exact ⟨_, _, scanLines_cons_of h1 h2⟩
  | succ k =>
    obtain ⟨o2, h2⟩ : ∃ o, scanLines (topKeyState "nfs" cm8)
        [kline 1 "volumes", chars "  - nfs_host: ", chars "    mount_path: /"] =
        Except.ok (insideVols cm8, o) := ⟨_, rfl⟩
    obtain ⟨o3, h3⟩ := scanVolEntries_nfs k
    exact ⟨_, _, scanLines_cons_of h1 (scanLines_append_ok h2 h3)⟩
